import Mathlib

/-!
Verification development for the voxel-world terrain core (neocraft).

The definitions below are a shallow embedding of the TypeScript sources:

* `src/terrain/BiomeMap.ts`            → `BiomeMap.getBiomeTM`
* `src/terrain/TerrainGenerator.ts`    → `TerrainGenerator.*`, `TreeGenerator.*`
* `src/terrain/MineshaftGenerator.ts`  → `MineshaftGenerator.*`
* `src/terrain/StructureGenerator.ts`  → `StructureGenerator.*`
* block registry source                → `BlockRegistry.*`

JavaScript 32-bit integer arithmetic is modelled on `Nat` residues modulo
2^32 (bit patterns of the JS int32 values; `|0`, `>>>`, `^`, `|` and
`Math.imul` all act on bit patterns, so unsigned residues are exact).
JS floating-point numbers produced by the PRNG are dyadic rationals
`k / 2^32` and every multiplication by a small integer constant performed
on them in the sources is exact in binary64, so they are modelled as `ℚ`.

Chunks are modelled as total functions from coordinates to integer block
tags, together with a ghost log (`writes`) of the applied `setBlock`
calls; the log is functionally inert and exists only so that theorems can
speak about individual writes (which cell was overwritten, by what).
-/

-- ---------------------------------------------------------------------------
-- Block tags
-- ---------------------------------------------------------------------------

/-- Integer block type tag.
Modelled from the spec: the `BlockType` enumeration itself is not under
`src/`; the spec fixes tags as integers with 0 = empty/air, and the block
registry source registers exactly the 33 variants below.  The numbering
follows registration order with AIR = 0. -/
abbrev Tag := Nat

namespace BlockType

def AIR : Tag := 0
def STONE : Tag := 1
def COBBLESTONE : Tag := 2
def BEDROCK : Tag := 3
def DIRT : Tag := 4
def GRASS : Tag := 5
def SAND : Tag := 6
def SAND_STONE : Tag := 7
def GRAVEL : Tag := 8
def SNOW : Tag := 9
def WATER : Tag := 10
def ICE : Tag := 11
def WOOD_OAK : Tag := 12
def LEAVES_OAK : Tag := 13
def PLANKS_OAK : Tag := 14
def WOOD_BIRCH : Tag := 15
def LEAVES_BIRCH : Tag := 16
def WOOD_SPRUCE : Tag := 17
def LEAVES_SPRUCE : Tag := 18
def COAL_ORE : Tag := 19
def IRON_ORE : Tag := 20
def GOLD_ORE : Tag := 21
def DIAMOND_ORE : Tag := 22
def CRAFTING_TABLE : Tag := 23
def FURNACE : Tag := 24
def GLASS : Tag := 25
def TORCH : Tag := 26
def TALL_GRASS : Tag := 27
def FLOWER_RED : Tag := 28
def FLOWER_YELLOW : Tag := 29
def CACTUS : Tag := 30
def WOOD_JUNGLE : Tag := 31
def LEAVES_JUNGLE : Tag := 32

end BlockType

-- ---------------------------------------------------------------------------
-- World constants
-- ---------------------------------------------------------------------------

/-- Modelled from the spec: `utils/Constants` is not under `src/`.  The
horizontal chunk extent; the sources index local x/z as `0..15` and use
`CHUNK_SIZE - 4` style arithmetic consistent with 16. -/
def CHUNK_SIZE : Int := 16

/-- Modelled from the spec: `utils/Constants` is not under `src/`.  The
vertical world extent; the sources use the literals 255/256 alongside
`CHUNK_HEIGHT`. -/
def CHUNK_HEIGHT : Int := 256

/-- Modelled from the spec: `utils/Constants` is not under `src/`.  The sea
level used by the column fill; a value between the ocean maximum height 58
and the beach minimum height 60..64 per the biome height table. -/
def SEA_LEVEL : Int := 62

-- ---------------------------------------------------------------------------
-- JS 32-bit arithmetic and the mulberry32 PRNG
-- ---------------------------------------------------------------------------

/-- Reduce to a JS int32 bit pattern (unsigned residue modulo 2^32). -/
def js32 (n : Nat) : Nat := n % 4294967296

/-- `Math.imul` on bit patterns. -/
def imul (a b : Nat) : Nat := js32 (a * b)

/-- One step of the `mulberry32` PRNG from the sources: takes the current
32-bit state, returns the updated state together with the emitted value
`out / 2^32 ∈ [0, 1)`. -/
def mulberryNext (s : Nat) : Nat × ℚ :=
  let s1 := js32 (s + 0x6d2b79f5)
  let t1 := imul (s1 ^^^ (s1 >>> 15)) (1 ||| s1)
  let t2 := js32 (t1 + imul (t1 ^^^ (t1 >>> 7)) (61 ||| t1)) ^^^ t1
  (s1, ((t2 ^^^ (t2 >>> 14) : Nat) : ℚ) / 4294967296)

/-- State of `mulberry32` seeded with `h` after `n` draws. -/
def mulberryState (h : Nat) : Nat → Nat
  | 0 => js32 h
  | n + 1 => (mulberryNext (mulberryState h n)).1

/-- The value stream of `mulberry32` seeded with `h`:
`mulberryStream h n` is the result of the `(n+1)`-th call. -/
def mulberryStream (h : Nat) : Nat → ℚ :=
  fun n => (mulberryNext (mulberryState h n)).2

/-- A pure random stream with a draw index: models a JS `() => number`
closure.  `stream` gives the value of each successive call. -/
structure RandState where
  stream : Nat → ℚ
  idx : Nat

/-- Draw the next random value. -/
def RandState.draw (r : RandState) : ℚ × RandState :=
  (r.stream r.idx, ⟨r.stream, r.idx + 1⟩)

/-- JS `Math.floor` on the exact rational model. -/
def jsFloor (q : ℚ) : Int := Int.floor q

-- ---------------------------------------------------------------------------
-- Chunk data model
-- ---------------------------------------------------------------------------

/-- One applied `chunk.setBlock` call: position, the tag previously stored
there, and the tag written.  Ghost data used only in specifications. -/
structure WriteRec where
  x : Int
  y : Int
  z : Int
  old : Tag
  new : Tag

/-- Modelled from the spec: `world/Chunk` is not under `src/`.  A chunk
owns a grid of block tags over local coordinates with bounds checks on
its accessors; `writes` is a ghost log of applied writes (newest first). -/
structure Chunk where
  grid : Int → Int → Int → Tag
  writes : List WriteRec

/-- Local coordinates inside the chunk. -/
def chunkInBounds (x y z : Int) : Prop :=
  0 ≤ x ∧ x < CHUNK_SIZE ∧ 0 ≤ y ∧ y < CHUNK_HEIGHT ∧ 0 ≤ z ∧ z < CHUNK_SIZE

instance (x y z : Int) : Decidable (chunkInBounds x y z) := by
  unfold chunkInBounds; infer_instance

/-- Modelled from the spec: out-of-bounds block reads return the absent
sentinel (air) rather than failing. -/
def Chunk.getBlock (c : Chunk) (x y z : Int) : Tag :=
  if chunkInBounds x y z then c.grid x y z else BlockType.AIR

/-- Modelled from the spec: writes outside the chunk are dropped by the
bounds check; in-bounds writes update the grid and are logged. -/
def Chunk.setBlock (c : Chunk) (x y z : Int) (t : Tag) : Chunk :=
  if chunkInBounds x y z then
    { grid := fun a b d => if a = x ∧ b = y ∧ d = z then t else c.grid a b d
      writes := ⟨x, y, z, c.grid x y z, t⟩ :: c.writes }
  else c

/-- A chunk created empty (all air), with an empty write log. -/
def emptyChunk : Chunk :=
  { grid := fun _ _ _ => BlockType.AIR, writes := [] }

-- ---------------------------------------------------------------------------
-- Block registry (metadata)
-- ---------------------------------------------------------------------------

/-- Per-type block metadata, as registered by the registry source. -/
structure Block where
  id : Tag
  name : String
  transparent : Bool
  solid : Bool
  hardness : ℚ
  toolType : String
  lightEmission : Nat

namespace BlockRegistry

open BlockType

/-- The registration list from the registry source, in source order.
Params per entry: id, name, transparent, solid, hardness, toolType,
lightEmission (default 0; only TORCH passes 14). -/
def blocks : List Block :=
  [ ⟨AIR, "Air", true, false, 0, "none", 0⟩
  , ⟨STONE, "Stone", false, true, 3/2, "pickaxe", 0⟩
  , ⟨COBBLESTONE, "Cobblestone", false, true, 2, "pickaxe", 0⟩
  , ⟨BEDROCK, "Bedrock", false, true, -1, "none", 0⟩
  , ⟨DIRT, "Dirt", false, true, 1/2, "shovel", 0⟩
  , ⟨GRASS, "Grass Block", false, true, 3/5, "shovel", 0⟩
  , ⟨SAND, "Sand", false, true, 1/2, "shovel", 0⟩
  , ⟨SAND_STONE, "Sandstone", false, true, 4/5, "pickaxe", 0⟩
  , ⟨GRAVEL, "Gravel", false, true, 3/5, "shovel", 0⟩
  , ⟨SNOW, "Snow", false, true, 1/5, "shovel", 0⟩
  , ⟨WATER, "Water", true, false, 0, "none", 0⟩
  , ⟨ICE, "Ice", true, true, 1/2, "pickaxe", 0⟩
  , ⟨WOOD_OAK, "Oak Wood", false, true, 2, "axe", 0⟩
  , ⟨LEAVES_OAK, "Oak Leaves", true, true, 1/5, "shears", 0⟩
  , ⟨PLANKS_OAK, "Oak Planks", false, true, 2, "axe", 0⟩
  , ⟨WOOD_BIRCH, "Birch Wood", false, true, 2, "axe", 0⟩
  , ⟨LEAVES_BIRCH, "Birch Leaves", true, true, 1/5, "shears", 0⟩
  , ⟨WOOD_SPRUCE, "Spruce Wood", false, true, 2, "axe", 0⟩
  , ⟨LEAVES_SPRUCE, "Spruce Leaves", true, true, 1/5, "shears", 0⟩
  , ⟨COAL_ORE, "Coal Ore", false, true, 3, "pickaxe", 0⟩
  , ⟨IRON_ORE, "Iron Ore", false, true, 3, "pickaxe", 0⟩
  , ⟨GOLD_ORE, "Gold Ore", false, true, 3, "pickaxe", 0⟩
  , ⟨DIAMOND_ORE, "Diamond Ore", false, true, 3, "pickaxe", 0⟩
  , ⟨CRAFTING_TABLE, "Crafting Table", false, true, 5/2, "axe", 0⟩
  , ⟨FURNACE, "Furnace", false, true, 7/2, "pickaxe", 0⟩
  , ⟨GLASS, "Glass", true, true, 3/10, "none", 0⟩
  , ⟨TORCH, "Torch", true, false, 0, "none", 14⟩
  , ⟨TALL_GRASS, "Tall Grass", true, false, 0, "shears", 0⟩
  , ⟨FLOWER_RED, "Red Flower", true, false, 0, "none", 0⟩
  , ⟨FLOWER_YELLOW, "Yellow Flower", true, false, 0, "none", 0⟩
  , ⟨CACTUS, "Cactus", true, true, 2/5, "none", 0⟩
  , ⟨WOOD_JUNGLE, "Jungle Wood", false, true, 2, "axe", 0⟩
  , ⟨LEAVES_JUNGLE, "Jungle Leaves", true, true, 1/5, "shears", 0⟩ ]

/-- `BlockRegistryImpl.has`: whether a tag is registered. -/
def has (t : Tag) : Bool :=
  (blocks.find? (fun b => b.id = t)).isSome

/-- `BlockRegistryImpl.get`: retrieve the definition; throws
(`Except.error`) for an unregistered tag. -/
def get (t : Tag) : Except String Block :=
  match blocks.find? (fun b => b.id = t) with
  | some b => Except.ok b
  | none => Except.error "BlockRegistry: unknown block type"

/-- `BlockRegistryImpl.isTransparent`, with the possible exception of the
inner `get` propagated. -/
def isTransparent (t : Tag) : Except String Bool :=
  if t = BlockType.AIR then Except.ok true
  else if has t then (get t).map (fun b => b.transparent)
  else Except.ok false

/-- `BlockRegistryImpl.isSolid`, with the possible exception of the inner
`get` propagated. -/
def isSolid (t : Tag) : Except String Bool :=
  if t = BlockType.AIR then Except.ok false
  else if has t then (get t).map (fun b => b.solid)
  else Except.ok true

end BlockRegistry

-- ---------------------------------------------------------------------------
-- Biome classifier (BiomeMap.ts)
-- ---------------------------------------------------------------------------

/-- The biome enumeration from `BiomeMap.ts`. -/
inductive Biome where
  | PLAINS | FOREST | DESERT | TAIGA | MOUNTAINS
  | OCEAN | BEACH | TUNDRA | JUNGLE | SWAMP
deriving DecidableEq, Repr

namespace BiomeMap

/-- The Whittaker-style decision table of `BiomeMap.getBiome`, as a pure
function of the already-normalized temperature and moisture values in
`[0, 1]`.  This is the exact `if` chain from the source. -/
def getBiomeTM (temp moist : ℚ) : Biome :=
  if moist > 78/100 then
    (if moist > 85/100 then Biome.OCEAN else Biome.BEACH)
  else if temp < 2/10 then Biome.TUNDRA
  else if temp < 45/100 then
    (if moist > 5/10 then Biome.TAIGA else Biome.TUNDRA)
  else if temp < 7/10 then
    (if moist > 68/100 then Biome.SWAMP
     else if moist > 55/100 then Biome.FOREST
     else if moist > 3/10 then Biome.PLAINS
     else Biome.PLAINS)
  else
    (if moist > 55/100 then Biome.JUNGLE
     else if moist > 35/100 then Biome.PLAINS
     else Biome.DESERT)

/-- Closed-lower temperature band index: bands `[0,0.2)`, `[0.2,0.45)`,
`[0.45,0.7)`, `[0.7,∞)`.  The source compares temperature with `<`, so a
temperature exactly at a threshold lands in the upper band. -/
def tempBand (temp : ℚ) : Nat :=
  if temp < 2/10 then 0
  else if temp < 45/100 then 1
  else if temp < 7/10 then 2
  else 3

/-- The truth values of every strict moisture comparison appearing in the
decision table.  The source compares moisture with `>`, so a moisture
exactly at a threshold behaves like the band below it. -/
def moistClass (moist : ℚ) : List Bool :=
  [ decide (moist > 78/100), decide (moist > 85/100)
  , decide (moist > 5/10), decide (moist > 68/100)
  , decide (moist > 55/100), decide (moist > 3/10)
  , decide (moist > 35/100) ]

/-- Decision-table core as a function of the discretized bands only. -/
def biomeOfBands (tb : Nat) (mc : List Bool) : Biome :=
  if mc.getD 0 false then
    (if mc.getD 1 false then Biome.OCEAN else Biome.BEACH)
  else if tb = 0 then Biome.TUNDRA
  else if tb = 1 then
    (if mc.getD 2 false then Biome.TAIGA else Biome.TUNDRA)
  else if tb = 2 then
    (if mc.getD 3 false then Biome.SWAMP
     else if mc.getD 4 false then Biome.FOREST
     else Biome.PLAINS)
  else
    (if mc.getD 4 false then Biome.JUNGLE
     else if mc.getD 6 false then Biome.PLAINS
     else Biome.DESERT)

/-- `specClosedLowerBiome` follows the words of the spec sentence for the
refutation of C4: every band boundary closed on the lower bound and open
on the upper, i.e. comparisons with `≥` at the same thresholds the code
uses, so a value exactly at a threshold falls into the upper band. -/
def specClosedLowerBiome (temp moist : ℚ) : Biome :=
  if moist ≥ 85/100 then Biome.OCEAN
  else if moist ≥ 78/100 then Biome.BEACH
  else if temp < 2/10 then Biome.TUNDRA
  else if temp < 45/100 then
    (if moist ≥ 5/10 then Biome.TAIGA else Biome.TUNDRA)
  else if temp < 7/10 then
    (if moist ≥ 68/100 then Biome.SWAMP
     else if moist ≥ 55/100 then Biome.FOREST
     else Biome.PLAINS)
  else
    (if moist ≥ 55/100 then Biome.JUNGLE
     else if moist ≥ 35/100 then Biome.PLAINS
     else Biome.DESERT)

end BiomeMap

-- ---------------------------------------------------------------------------
-- Small iteration helpers
-- ---------------------------------------------------------------------------

/-- Inclusive integer range `[lo, hi]` as a list (empty when `hi < lo`). -/
def intRange (lo hi : Int) : List Int :=
  (List.range (hi + 1 - lo).toNat).map (fun (i : Nat) => lo + (i : Int))

/-- JS `Math.round` on the exact rational model (round half toward +∞). -/
def jsRound (q : ℚ) : Int := Int.floor (q + 1/2)

-- ---------------------------------------------------------------------------
-- TreeGenerator (TerrainGenerator.ts, TreeGenerator class)
-- ---------------------------------------------------------------------------

/-- Tree species from the source. -/
inductive TreeType where
  | OAK | BIRCH | SPRUCE | JUNGLE
deriving DecidableEq, Repr

namespace TreeGenerator

/-- `TreeGenerator.isInBounds`. -/
def isInBounds (lx y lz : Int) : Bool :=
  decide (0 ≤ lx ∧ lx < CHUNK_SIZE ∧ 0 ≤ lz ∧ lz < CHUNK_SIZE ∧
          0 ≤ y ∧ y < CHUNK_HEIGHT)

/-- `TreeGenerator.setIfInBounds`. -/
def setIfInBounds (c : Chunk) (lx y lz : Int) (block : Tag) : Chunk :=
  if isInBounds lx y lz then c.setBlock lx y lz block else c

/-- One cell of `TreeGenerator.placeLeafSphere`: place the leaf only when
inside the sphere, in bounds, and the target currently holds air. -/
def leafSphereCell (cx cy cz : Int) (radius : Int) (leafBlock : Tag)
    (c : Chunk) (dx dy dz : Int) : Chunk :=
  if ((dx * dx + dy * dy + dz * dz : Int) : ℚ) >
      ((radius : ℚ) + 1/2) * ((radius : ℚ) + 1/2) then c
  else if isInBounds (cx + dx) (cy + dy) (cz + dz) then
    (if c.getBlock (cx + dx) (cy + dy) (cz + dz) = BlockType.AIR
     then c.setBlock (cx + dx) (cy + dy) (cz + dz) leafBlock else c)
  else c

/-- `TreeGenerator.placeLeafSphere`. -/
def placeLeafSphere (c : Chunk) (cx cy cz : Int) (radius : Int)
    (leafBlock : Tag) : Chunk :=
  (intRange (-radius) radius).foldl
    (fun c1 dx =>
      (intRange (-radius) (radius + 1)).foldl
        (fun c2 dy =>
          (intRange (-radius) radius).foldl
            (fun c3 dz => leafSphereCell cx cy cz radius leafBlock c3 dx dy dz)
            c2)
        c1)
    c

/-- Place a straight trunk of `trunkHeight` blocks of `wood` at the base. -/
def placeTrunk (c : Chunk) (lx y lz : Int) (trunkHeight : Int)
    (wood : Tag) : Chunk :=
  (intRange 0 (trunkHeight - 1)).foldl
    (fun c1 dy => setIfInBounds c1 lx (y + dy) lz wood) c

/-- `TreeGenerator.placeOakTree`: 4-6 block trunk, radius-2 leaf sphere. -/
def placeOakTree (c : Chunk) (lx y lz : Int) (r : RandState) :
    Chunk × RandState :=
  let (v, r1) := r.draw
  let trunkHeight := 4 + jsFloor (v * 3)
  let c1 := placeTrunk c lx y lz trunkHeight BlockType.WOOD_OAK
  let c2 := placeLeafSphere c1 lx (y + trunkHeight - 1) lz 2 BlockType.LEAVES_OAK
  (c2, r1)

/-- `TreeGenerator.placeBirchTree`: 5-7 block trunk, radius-2 leaf sphere. -/
def placeBirchTree (c : Chunk) (lx y lz : Int) (r : RandState) :
    Chunk × RandState :=
  let (v, r1) := r.draw
  let trunkHeight := 5 + jsFloor (v * 3)
  let c1 := placeTrunk c lx y lz trunkHeight BlockType.WOOD_BIRCH
  let c2 := placeLeafSphere c1 lx (y + trunkHeight - 1) lz 2 BlockType.LEAVES_BIRCH
  (c2, r1)

/-- One conical leaf layer of the spruce tree at height `ly`.
The radius mirrors `Math.round((1 - fraction) * 3)`; rationals model the
binary64 arithmetic exactly except when `(1 - fraction) * 3` lands exactly
on `n + 1/2` (possible only for trunk height 8), where binary64 evaluates
marginally below the tie; concrete runs below avoid that trunk height. -/
def spruceLayer (lx y lz trunkHeight leafBottomY totalLeafLayers : Int)
    (c : Chunk) (ly : Int) : Chunk :=
  let layerIndex := ly - leafBottomY
  let fraction : ℚ := (layerIndex : ℚ) / (max (totalLeafLayers - 1) 1 : Int)
  let radius := max (jsRound ((1 - fraction) * 3)) 0
  (intRange (-radius) radius).foldl
    (fun c1 dx =>
      (intRange (-radius) radius).foldl
        (fun c2 dz =>
          if |dx| = radius ∧ |dz| = radius ∧ radius > 1 then c2
          else if dx = 0 ∧ dz = 0 ∧ ly < y + trunkHeight then c2
          else setIfInBounds c2 (lx + dx) ly (lz + dz) BlockType.LEAVES_SPRUCE)
        c1)
    c

/-- `TreeGenerator.placeSpruceTree`: 6-9 block trunk, conical leaves,
top cap one block above the trunk top. -/
def placeSpruceTree (c : Chunk) (lx y lz : Int) (r : RandState) :
    Chunk × RandState :=
  let (v, r1) := r.draw
  let trunkHeight := 6 + jsFloor (v * 4)
  let c1 := placeTrunk c lx y lz trunkHeight BlockType.WOOD_SPRUCE
  let leafBottomY := y + 2
  let leafTopY := y + trunkHeight
  let totalLeafLayers := leafTopY - leafBottomY + 1
  let c2 := (intRange leafBottomY leafTopY).foldl
    (spruceLayer lx y lz trunkHeight leafBottomY totalLeafLayers) c1
  let c3 := setIfInBounds c2 lx (leafTopY + 1) lz BlockType.LEAVES_SPRUCE
  (c3, r1)

/-- `TreeGenerator.placeJungleTree`: 8-14 block trunk, radius-3 sphere. -/
def placeJungleTree (c : Chunk) (lx y lz : Int) (r : RandState) :
    Chunk × RandState :=
  let (v, r1) := r.draw
  let trunkHeight := 8 + jsFloor (v * 7)
  let c1 := placeTrunk c lx y lz trunkHeight BlockType.WOOD_JUNGLE
  let c2 := placeLeafSphere c1 lx (y + trunkHeight - 1) lz 3 BlockType.LEAVES_JUNGLE
  (c2, r1)

/-- `TreeGenerator.generateTree`. -/
def generateTree (c : Chunk) (localX y localZ : Int) (treeType : TreeType)
    (r : RandState) : Chunk × RandState :=
  match treeType with
  | TreeType.OAK => placeOakTree c localX y localZ r
  | TreeType.BIRCH => placeBirchTree c localX y localZ r
  | TreeType.SPRUCE => placeSpruceTree c localX y localZ r
  | TreeType.JUNGLE => placeJungleTree c localX y localZ r

end TreeGenerator

-- ---------------------------------------------------------------------------
-- MineshaftGenerator (MineshaftGenerator.ts)
-- ---------------------------------------------------------------------------

/-- `ToUint32` of a JS int32 bit pattern obtained from an integer-valued
float (exact for magnitudes below 2^53, which covers every product of a
chunk coordinate with the hash multipliers used in the sources). -/
def jsToUint32 (i : Int) : Nat := (i % 4294967296).toNat

namespace MineshaftGenerator

/-- The direction table `DIRS`. -/
def DIRS : List (Int × Int) := [(1, 0), (-1, 0), (0, 1), (0, -1)]

/-- `MineshaftGenerator.inBounds`. -/
def inBounds (x z : Int) : Bool :=
  decide (0 ≤ x ∧ x < CHUNK_SIZE ∧ 0 ≤ z ∧ z < CHUNK_SIZE)

/-- `MineshaftGenerator.placeTorch`. -/
def placeTorch (c : Chunk) (x y z : Int) : Chunk :=
  if inBounds x z ∧ 1 ≤ y ∧ y < 255 then c.setBlock x y z BlockType.TORCH else c

/-- `MineshaftGenerator.isStone`. -/
def isStone (c : Chunk) (x y z : Int) : Bool :=
  if inBounds x z ∧ 0 ≤ y ∧ y < 256 then
    decide (c.getBlock x y z = BlockType.STONE)
  else false

/-- `MineshaftGenerator.isStoneOrAir`. -/
def isStoneOrAir (c : Chunk) (x y z : Int) : Bool :=
  if inBounds x z ∧ 0 ≤ y ∧ y < 256 then
    decide (c.getBlock x y z = BlockType.STONE ∨ c.getBlock x y z = BlockType.AIR)
  else false

/-- One carved cell of a corridor or room: write air unless outside the
vertical carving band or the existing block is bedrock or water. -/
def carveCell (c : Chunk) (bx yv bz : Int) : Chunk :=
  if yv < 1 ∨ yv ≥ 255 then c
  else if c.getBlock bx yv bz = BlockType.BEDROCK ∨
          c.getBlock bx yv bz = BlockType.WATER then c
  else c.setBlock bx yv bz BlockType.AIR

/-- The three vertically stacked carved cells of one corridor column. -/
def carveColumn (c : Chunk) (bx sy bz : Int) : Chunk :=
  (intRange 0 2).foldl (fun c1 dy => carveCell c1 bx (sy + dy) bz) c

/-- `MineshaftGenerator.placeSupport`: two unconditional wood pillars plus
an unconditional plank beam across the top (only clipped to bounds). -/
def placeSupport (c : Chunk) (cx sy cz px pz : Int) : Chunk :=
  let lx := cx - px
  let lz := cz - pz
  let c1 :=
    if inBounds lx lz then
      (intRange 0 2).foldl
        (fun cc dy => cc.setBlock lx (sy + dy) lz BlockType.WOOD_OAK) c
    else c
  let rx := cx + px
  let rz := cz + pz
  let c2 :=
    if inBounds rx rz then
      (intRange 0 2).foldl
        (fun cc dy => cc.setBlock rx (sy + dy) rz BlockType.WOOD_OAK) c1
    else c1
  (intRange (-1) 1).foldl
    (fun cc w =>
      if inBounds (cx + px * w) (cz + pz * w) then
        cc.setBlock (cx + px * w) (sy + 2) (cz + pz * w) BlockType.PLANKS_OAK
      else cc)
    c2

/-- Body of one step of `MineshaftGenerator.carveCorridor` (after the
bounds check): carve the 3x3 cross-section, lay the plank walkway,
place a support frame every 4 steps and a torch every 8 steps. -/
def corridorStepBody (c : Chunk) (cx cz sy px pz : Int) (step : Nat) : Chunk :=
  let c1 := (intRange (-1) 1).foldl
    (fun cc w => carveColumn cc (cx + px * w) sy (cz + pz * w)) c
  let c2 :=
    if isStoneOrAir c1 cx (sy - 1) cz then
      c1.setBlock cx (sy - 1) cz BlockType.PLANKS_OAK
    else c1
  let c3 := if step % 4 = 0 then placeSupport c2 cx sy cz px pz else c2
  if step % 8 = 4 ∧ step > 0 then
    placeTorch c3 (cx + px) (sy + 1) (cz + pz)
  else c3

/-- The stepping loop of `MineshaftGenerator.carveCorridor`; `remaining`
counts the steps left and the walk breaks at the chunk boundary. -/
def carveCorridorGo (sx sy sz dx dz px pz : Int) (c : Chunk) :
    Nat → Nat → Chunk
  | _, 0 => c
  | step, remaining + 1 =>
    let cx := sx + dx * step
    let cz := sz + dz * step
    if ¬(inBounds (cx - px) (cz - pz) ∧ inBounds (cx + px) (cz + pz)) then c
    else
      carveCorridorGo sx sy sz dx dz px pz
        (corridorStepBody c cx cz sy px pz step) (step + 1) remaining

/-- `MineshaftGenerator.carveCorridor` (its `rng` parameter is unused in
the source and omitted here). -/
def carveCorridor (c : Chunk) (sx sy sz dx dz length : Int) : Chunk :=
  let px : Int := if dz ≠ 0 then 1 else 0
  let pz : Int := if dx ≠ 0 then 1 else 0
  carveCorridorGo sx sy sz dx dz px pz c 0 length.toNat

/-- `MineshaftGenerator.carveRoom`. -/
def carveRoom (c : Chunk) (sx sy sz w h d : Int) : Chunk :=
  (intRange sx (sx + w - 1)).foldl
    (fun c1 x =>
      (intRange sz (sz + d - 1)).foldl
        (fun c2 z =>
          if ¬ inBounds x z then c2
          else (intRange 0 (h - 1)).foldl
            (fun c3 dy => carveCell c3 x (sy + dy) z) c2)
        c1)
    c

/-- Swap two positions of a list (identity when either is out of range). -/
def listSwap (l : List (Int × Int)) (i j : Nat) : List (Int × Int) :=
  match l.get? i, l.get? j with
  | some a, some b => (l.set i b).set j a
  | _, _ => l

/-- `MineshaftGenerator.shuffleDirs`: Fisher-Yates over a copy of `DIRS`. -/
def shuffleDirs (r : RandState) : List (Int × Int) × RandState :=
  ([3, 2, 1] : List Nat).foldl
    (fun (st : List (Int × Int) × RandState) (i : Nat) =>
      let (v, r2) := st.2.draw
      let j := (jsFloor (v * (((i : Int)) + 1))).toNat
      (listSwap st.1 i j, r2))
    (DIRS, r)

/-- One branch of `MineshaftGenerator.buildNetwork`: a corridor, plus a
40% chance of one perpendicular secondary corridor from its far end. -/
def networkBranch (startX baseY startZ : Int) (dirs : List (Int × Int))
    (st : Chunk × RandState) (b : Nat) : Chunk × RandState :=
  let (c, r) := st
  let dir := dirs.getD b (0, 0)
  let (v, r1) := r.draw
  let len := 8 + jsFloor (v * 16)
  let c1 := carveCorridor c startX baseY startZ dir.1 dir.2 len
  let (v2, r2) := r1.draw
  if v2 < 4/10 then
    let endX := startX + dir.1 * len
    let endZ := startZ + dir.2 * len
    if inBounds endX endZ then
      let (v3, r3) := r2.draw
      let turnDir :=
        if dir.2 = 0 then DIRS.getD (2 + jsFloor (v3 * 2)).toNat (0, 0)
        else DIRS.getD (jsFloor (v3 * 2)).toNat (0, 0)
      let (v4, r4) := r3.draw
      let subLen := 6 + jsFloor (v4 * 10)
      (carveCorridor c1 endX baseY endZ turnDir.1 turnDir.2 subLen, r4)
    else (c1, r2)
  else (c1, r2)

/-- `MineshaftGenerator.buildNetwork`. -/
def buildNetwork (c : Chunk) (r : RandState) (startX baseY startZ : Int) :
    Chunk :=
  let c1 := carveRoom c (startX - 1) baseY (startZ - 1) 3 3 3
  let c2 := placeTorch c1 startX (baseY + 2) startZ
  let (v, r1) := r.draw
  let branchCount := 3 + jsFloor (v * 3)
  let (dirs, r2) := shuffleDirs r1
  ((List.range (min branchCount (dirs.length : Int)).toNat).foldl
    (networkBranch startX baseY startZ dirs) (c2, r2)).1

/-- The per-chunk hash feeding `mulberry32` in
`MineshaftGenerator.chunkRng`. -/
def chunkRngSeed (seed : Nat) (worldX worldZ : Int) : Nat :=
  let h0 := js32 (seed + 0x4d696e65)
  let h1 := h0 ^^^ jsToUint32 (worldX * 492876847)
  let h2 := h1 ^^^ jsToUint32 (worldZ * 715225739)
  js32 (imul (h2 ^^^ (h2 >>> 13)) 1597334677 + 0xc3a5c85c)

/-- `MineshaftGenerator.generate`. -/
def generate (seed : Nat) (c : Chunk) (worldX worldZ : Int) : Chunk :=
  let r : RandState := ⟨mulberryStream (chunkRngSeed seed worldX worldZ), 0⟩
  let (v1, r1) := r.draw
  if v1 > 3/100 then c
  else
    let (v2, r2) := r1.draw
    let baseY := 12 + jsFloor (v2 * 30)
    let (v3, r3) := r2.draw
    let startX := 2 + jsFloor (v3 * (CHUNK_SIZE - 4))
    let (v4, r4) := r3.draw
    let startZ := 2 + jsFloor (v4 * (CHUNK_SIZE - 4))
    if ¬ isStone c startX baseY startZ then c
    else buildNetwork c r4 startX baseY startZ

end MineshaftGenerator

-- ---------------------------------------------------------------------------
-- BiomeMap instances over noise oracles
-- ---------------------------------------------------------------------------

/-- A `BiomeMap` instance: the two `createNoise2D` fields are values of the
external simplex-noise library (not part of this repository), modelled as
arbitrary pure functions per the Noise Field purity contract. -/
structure BiomeMapM where
  temperatureNoise : ℚ → ℚ → ℚ
  moistureNoise : ℚ → ℚ → ℚ

namespace BiomeMapM

/-- `BiomeMap.getTemperature` (scale 0.0008, mapped from [-1,1] to [0,1]). -/
def getTemperature (bm : BiomeMapM) (worldX worldZ : Int) : ℚ :=
  (bm.temperatureNoise ((worldX : ℚ) * (8/10000)) ((worldZ : ℚ) * (8/10000)) + 1) * (1/2)

/-- `BiomeMap.getMoisture` (scale 0.0006). -/
def getMoisture (bm : BiomeMapM) (worldX worldZ : Int) : ℚ :=
  (bm.moistureNoise ((worldX : ℚ) * (6/10000)) ((worldZ : ℚ) * (6/10000)) + 1) * (1/2)

/-- `BiomeMap.getBiome`. -/
def getBiome (bm : BiomeMapM) (worldX worldZ : Int) : Biome :=
  BiomeMap.getBiomeTM (bm.getTemperature worldX worldZ) (bm.getMoisture worldX worldZ)

end BiomeMapM

-- ---------------------------------------------------------------------------
-- StructureGenerator (StructureGenerator.ts)
-- ---------------------------------------------------------------------------

/-- Ghost marker for which large structure was committed in a chunk. -/
inductive StructureKind where
  | well | cabin | dungeon
deriving DecidableEq, Repr

namespace StructureGenerator

/-- `StructureGenerator.isFlatArea`: false when any footprint cell is out
of bounds, otherwise max height minus min height at most `maxVariation`. -/
def isFlatArea (hm : Int → Int → Int)
    (startX startZ width depth maxVariation : Int) : Bool :=
  let cells := (intRange startX (startX + width - 1)).flatMap
    (fun x => (intRange startZ (startZ + depth - 1)).map (fun z => (x, z)))
  if cells.any (fun p =>
      ¬(0 ≤ p.1 ∧ p.1 < CHUNK_SIZE ∧ 0 ≤ p.2 ∧ p.2 < CHUNK_SIZE)) then false
  else
    match cells.foldl
      (fun (acc : Option (Int × Int)) p =>
        let h := hm p.1 p.2
        match acc with
        | none => some (h, h)
        | some (mn, mx) => some (min mn h, max mx h))
      none with
    | none => true
    | some (mn, mx) => decide (mx - mn ≤ maxVariation)

/-- The block writes of a committed desert well (basin, ring, rim). -/
def buildWell (c : Chunk) (baseY sx sz : Int) : Chunk :=
  let c1 := (intRange (sx + 1) (sx + 3)).foldl
    (fun ca x =>
      (intRange (sz + 1) (sz + 3)).foldl
        (fun cb z =>
          (cb.setBlock x (baseY - 1) z BlockType.SAND_STONE).setBlock
            x baseY z BlockType.WATER)
        ca)
    c
  let c2 := (intRange sx (sx + 4)).foldl
    (fun ca x =>
      (intRange sz (sz + 4)).foldl
        (fun cb z =>
          if x > sx ∧ x < sx + 4 ∧ z > sz ∧ z < sz + 4 then cb
          else cb.setBlock x baseY z BlockType.SAND_STONE)
        ca)
    c1
  (intRange sx (sx + 4)).foldl
    (fun ca x =>
      (intRange sz (sz + 4)).foldl
        (fun cb z =>
          let cb1 :=
            if x > sx ∧ x < sx + 4 ∧ z > sz ∧ z < sz + 4 then cb
            else cb.setBlock x (baseY + 1) z BlockType.SAND_STONE
          cb1.setBlock x (baseY + 2) z BlockType.AIR)
        ca)
    c2

/-- `StructureGenerator.tryPlaceDesertWell`: draw a position, require the
5x5 footprint flat within variation 1, then build. -/
def tryPlaceDesertWell (c : Chunk) (hm : Int → Int → Int) (r : RandState) :
    Bool × Chunk × RandState :=
  let (v1, r1) := r.draw
  let sx := 3 + jsFloor (v1 * (CHUNK_SIZE - 5 - 6))
  let (v2, r2) := r1.draw
  let sz := 3 + jsFloor (v2 * (CHUNK_SIZE - 5 - 6))
  if isFlatArea hm sx sz 5 5 1 then
    (true, buildWell c (hm (sx + 2) (sz + 2)) sx sz, r2)
  else (false, c, r2)

/-- One wall cell of the cabin at wall layer `dy ∈ [1,3]`. -/
def cabinWallCell (sx sz : Int) (dy : Int) (x z : Int) : Tag :=
  let onEdge := x = sx ∨ x = sx + 6 ∨ z = sz ∨ z = sz + 4
  let isCorner := (x = sx ∨ x = sx + 6) ∧ (z = sz ∨ z = sz + 4)
  if isCorner then BlockType.WOOD_OAK
  else if onEdge then
    (if z = sz + 4 ∧ x = sx + 3 ∧ dy ≤ 2 then BlockType.AIR
     else if dy = 2 ∧ (x = sx ∨ x = sx + 6) ∧ z > sz ∧ z < sz + 4 then
       BlockType.GLASS
     else BlockType.PLANKS_OAK)
  else BlockType.AIR

/-- The block writes of a committed cabin. -/
def buildCabin (c : Chunk) (baseY sx sz : Int) : Chunk :=
  let c1 := (intRange sx (sx + 6)).foldl
    (fun ca x =>
      (intRange sz (sz + 4)).foldl
        (fun cb z => cb.setBlock x baseY z BlockType.COBBLESTONE) ca)
    c
  let c2 := (intRange 1 3).foldl
    (fun ca dy =>
      (intRange sx (sx + 6)).foldl
        (fun cb x =>
          (intRange sz (sz + 4)).foldl
            (fun cc z => cc.setBlock x (baseY + dy) z (cabinWallCell sx sz dy x z))
            cb)
        ca)
    c1
  let c3 := (intRange sx (sx + 6)).foldl
    (fun ca x =>
      (intRange sz (sz + 4)).foldl
        (fun cb z => cb.setBlock x (baseY + 4) z BlockType.PLANKS_OAK) ca)
    c2
  let c4 := (intRange sx (sx + 6)).foldl
    (fun ca x =>
      (intRange sz (sz + 4)).foldl
        (fun cb z => cb.setBlock x (baseY + 5) z BlockType.AIR) ca)
    c3
  let c5 := c4.setBlock (sx + 3) (baseY + 2) (sz + 1) BlockType.TORCH
  let c6 := c5.setBlock (sx + 1) (baseY + 1) (sz + 1) BlockType.CRAFTING_TABLE
  c6.setBlock (sx + 2) (baseY + 1) (sz + 1) BlockType.FURNACE

/-- `StructureGenerator.tryPlaceCabin`: draw a position, require the 7x5
footprint flat within variation 2, then build. -/
def tryPlaceCabin (c : Chunk) (hm : Int → Int → Int) (r : RandState) :
    Bool × Chunk × RandState :=
  let (v1, r1) := r.draw
  let sx := 2 + jsFloor (v1 * (CHUNK_SIZE - 7 - 4))
  let (v2, r2) := r1.draw
  let sz := 2 + jsFloor (v2 * (CHUNK_SIZE - 5 - 4))
  if isFlatArea hm sx sz 7 5 2 then
    (true, buildCabin c (hm (sx + 3) (sz + 2)) sx sz, r2)
  else (false, c, r2)

/-- `StructureGenerator.buildDungeon`: cobblestone shell, hollow interior,
four wall torches. -/
def buildDungeon (c : Chunk) (sx sy sz w h : Int) : Chunk :=
  let c1 := (intRange sx (sx + w - 1)).foldl
    (fun ca x =>
      (intRange sz (sz + w - 1)).foldl
        (fun cb z =>
          (intRange 0 (h - 1)).foldl
            (fun cc dy =>
              let y := sy + dy
              if y ≥ CHUNK_HEIGHT then cc
              else if dy = 0 ∨ dy = h - 1 ∨ x = sx ∨ x = sx + w - 1 ∨
                      z = sz ∨ z = sz + w - 1 then
                cc.setBlock x y z BlockType.COBBLESTONE
              else cc.setBlock x y z BlockType.AIR)
            cb)
        ca)
    c
  let midX := sx + w / 2
  let midZ := sz + w / 2
  let torchY := sy + 2
  let c2 := c1.setBlock midX torchY (sz + 1) BlockType.TORCH
  let c3 := c2.setBlock midX torchY (sz + w - 2) BlockType.TORCH
  let c4 := c3.setBlock (sx + 1) torchY midZ BlockType.TORCH
  c4.setBlock (sx + w - 2) torchY midZ BlockType.TORCH

/-- The attempt loop of `StructureGenerator.tryPlaceDungeon`: up to
`fuel` candidate positions; a candidate is committed only when its two
stone probes (volume center and the cell just above the ceiling) pass. -/
def tryPlaceDungeonGo (c : Chunk) (r : RandState) :
    Nat → Bool × Chunk × RandState
  | 0 => (false, c, r)
  | n + 1 =>
    let (v1, r1) := r.draw
    let sx := 2 + jsFloor (v1 * (CHUNK_SIZE - 7 - 2))
    let (v2, r2) := r1.draw
    let sz := 2 + jsFloor (v2 * (CHUNK_SIZE - 7 - 2))
    let (v3, r3) := r2.draw
    let sy := 12 + jsFloor (v3 * 28)
    if c.getBlock (sx + 3) (sy + 2) (sz + 3) ≠ BlockType.STONE then
      tryPlaceDungeonGo c r3 n
    else if c.getBlock (sx + 3) (sy + 5) (sz + 3) ≠ BlockType.STONE then
      tryPlaceDungeonGo c r3 n
    else (true, buildDungeon c sx sy sz 7 5, r3)

/-- `StructureGenerator.tryPlaceDungeon`: at most 5 attempts. -/
def tryPlaceDungeon (c : Chunk) (r : RandState) : Bool × Chunk × RandState :=
  tryPlaceDungeonGo c r 5

/-- The desert-well stage of `StructureGenerator.placeStructures`: roll
only in a desert chunk (~3%), then attempt the well. -/
def wellStep (c : Chunk) (hm : Int → Int → Int) (centerBiome : Biome)
    (s : RandState) : Chunk × RandState × List StructureKind :=
  if centerBiome = Biome.DESERT then
    (if (s.draw).1 < 3/100 then
      ((tryPlaceDesertWell c hm (s.draw).2).2.1,
       (tryPlaceDesertWell c hm (s.draw).2).2.2,
       if (tryPlaceDesertWell c hm (s.draw).2).1 then [StructureKind.well] else [])
     else (c, (s.draw).2, []))
  else (c, s, [])

/-- The cabin stage: roll only in plains/forest (~2%), then attempt. -/
def cabinStep (c : Chunk) (hm : Int → Int → Int) (centerBiome : Biome)
    (s : RandState) : Chunk × RandState × List StructureKind :=
  if centerBiome = Biome.PLAINS ∨ centerBiome = Biome.FOREST then
    (if (s.draw).1 < 2/100 then
      ((tryPlaceCabin c hm (s.draw).2).2.1,
       (tryPlaceCabin c hm (s.draw).2).2.2,
       if (tryPlaceCabin c hm (s.draw).2).1 then [StructureKind.cabin] else [])
     else (c, (s.draw).2, []))
  else (c, s, [])

/-- The dungeon stage: roll anywhere (~5%), then attempt. -/
def dungeonStep (c : Chunk) (s : RandState) :
    Chunk × RandState × List StructureKind :=
  if (s.draw).1 < 5/100 then
    ((tryPlaceDungeon c (s.draw).2).2.1,
     (tryPlaceDungeon c (s.draw).2).2.2,
     if (tryPlaceDungeon c (s.draw).2).1 then [StructureKind.dungeon] else [])
  else (c, (s.draw).2, [])

/-- `StructureGenerator.placeStructures`, over explicit random streams:
`r` is the decoration stream the method receives (and, as in the source,
never draws from); `s` is the dedicated structure stream.  The returned
`RandState` is the decoration stream handed on to phase 2, and the ghost
list records which structure (if any) was committed; a successful stage
returns immediately. -/
def placeStructuresWith (c : Chunk) (hm : Int → Int → Int) (bm : BiomeMapM)
    (worldX worldZ : Int) (r s : RandState) :
    Chunk × RandState × List StructureKind :=
  let centerBiome := bm.getBiome (worldX + 8) (worldZ + 8)
  let w := wellStep c hm centerBiome s
  if w.2.2 ≠ [] then (w.1, r, w.2.2)
  else
    let cb := cabinStep w.1 hm centerBiome w.2.1
    if cb.2.2 ≠ [] then (cb.1, r, cb.2.2)
    else
      let d := dungeonStep cb.1 cb.2.1
      (d.1, r, d.2.2)

end StructureGenerator

-- ---------------------------------------------------------------------------
-- StructureGenerator phase 2: per-biome surface decoration
-- ---------------------------------------------------------------------------

namespace StructureGenerator

/-- `StructureGenerator.hasClearNeighbours`. -/
def hasClearNeighbours (c : Chunk) (lx y lz : Int) : Bool :=
  ([(lx - 1, lz), (lx + 1, lz), (lx, lz - 1), (lx, lz + 1)] :
      List (Int × Int)).all
    (fun p =>
      if p.1 < 0 ∨ p.1 ≥ CHUNK_SIZE ∨ p.2 < 0 ∨ p.2 ≥ CHUNK_SIZE then true
      else decide (c.getBlock p.1 y p.2 = BlockType.AIR))

/-- `StructureGenerator.decoratePlains`. -/
def decoratePlains (c : Chunk) (lx y lz : Int) (r : RandState) :
    Chunk × RandState :=
  let (roll, r1) := r.draw
  if roll < 3/10 then (c.setBlock lx y lz BlockType.TALL_GRASS, r1)
  else if roll < 33/100 then
    let (v, r2) := r1.draw
    (c.setBlock lx y lz
      (if v < 1/2 then BlockType.FLOWER_RED else BlockType.FLOWER_YELLOW), r2)
  else (c, r1)

/-- `StructureGenerator.decorateForest`. -/
def decorateForest (c : Chunk) (lx y lz : Int) (r : RandState) :
    Chunk × RandState :=
  let (roll, r1) := r.draw
  if roll < 35/100 then (c.setBlock lx y lz BlockType.TALL_GRASS, r1)
  else if roll < 43/100 then
    let (v, r2) := r1.draw
    (c.setBlock lx y lz
      (if v < 1/2 then BlockType.FLOWER_RED else BlockType.FLOWER_YELLOW), r2)
  else (c, r1)

/-- `StructureGenerator.decorateDesert`. -/
def decorateDesert (c : Chunk) (lx y lz : Int) (r : RandState) :
    Chunk × RandState :=
  let (v, r1) := r.draw
  if v ≥ 2/100 then (c, r1)
  else if ¬ hasClearNeighbours c lx y lz then (c, r1)
  else
    let (v2, r2) := r1.draw
    let height := 2 + jsFloor (v2 * 2)
    ((intRange 0 (height - 1)).foldl
      (fun cc dy =>
        if y + dy ≥ 256 then cc
        else cc.setBlock lx (y + dy) lz BlockType.CACTUS)
      c, r2)

/-- `StructureGenerator.decorateTaiga`. -/
def decorateTaiga (c : Chunk) (lx y lz : Int) (r : RandState) :
    Chunk × RandState :=
  let (v, r1) := r.draw
  if v < 15/100 then (c.setBlock lx y lz BlockType.TALL_GRASS, r1) else (c, r1)

/-- `StructureGenerator.decorateJungle`. -/
def decorateJungle (c : Chunk) (lx y lz : Int) (r : RandState) :
    Chunk × RandState :=
  let (roll, r1) := r.draw
  if roll < 4/10 then (c.setBlock lx y lz BlockType.TALL_GRASS, r1)
  else if roll < 5/10 then
    let (v, r2) := r1.draw
    (c.setBlock lx y lz
      (if v < 6/10 then BlockType.FLOWER_RED else BlockType.FLOWER_YELLOW), r2)
  else (c, r1)

/-- `StructureGenerator.decorateSwamp`. -/
def decorateSwamp (c : Chunk) (lx y lz : Int) (r : RandState) :
    Chunk × RandState :=
  let (roll, r1) := r.draw
  if roll < 25/100 then (c.setBlock lx y lz BlockType.TALL_GRASS, r1)
  else if roll < 28/100 then (c.setBlock lx y lz BlockType.FLOWER_RED, r1)
  else (c, r1)

/-- `StructureGenerator.decorateTundra`. -/
def decorateTundra (c : Chunk) (lx y lz : Int) (r : RandState) :
    Chunk × RandState :=
  let (v, r1) := r.draw
  if v < 2/100 then (c.setBlock lx y lz BlockType.FLOWER_YELLOW, r1)
  else (c, r1)

/-- One column of phase 2 of `StructureGenerator.generate`: skip columns
whose cell above the surface is missing or not air, then dispatch to the
biome decorator. -/
def decorateColumn (hm : Int → Int → Int) (bm : BiomeMapM)
    (worldX worldZ : Int) (st : Chunk × RandState) (lx lz : Int) :
    Chunk × RandState :=
  let (c, r) := st
  let surfaceY := hm lx lz
  let biome := bm.getBiome (worldX + lx) (worldZ + lz)
  let placeY := surfaceY + 1
  if placeY ≥ 256 then (c, r)
  else if c.getBlock lx placeY lz ≠ BlockType.AIR then (c, r)
  else
    match biome with
    | Biome.PLAINS => decoratePlains c lx placeY lz r
    | Biome.FOREST => decorateForest c lx placeY lz r
    | Biome.DESERT => decorateDesert c lx placeY lz r
    | Biome.TAIGA => decorateTaiga c lx placeY lz r
    | Biome.TUNDRA => decorateTundra c lx placeY lz r
    | Biome.JUNGLE => decorateJungle c lx placeY lz r
    | Biome.SWAMP => decorateSwamp c lx placeY lz r
    | _ => (c, r)

/-- Phase 2 of `StructureGenerator.generate`: the per-column decoration
sweep over the whole chunk. -/
def decorateAll (c : Chunk) (hm : Int → Int → Int) (bm : BiomeMapM)
    (worldX worldZ : Int) (r : RandState) : Chunk × RandState :=
  (intRange 0 (CHUNK_SIZE - 1)).foldl
    (fun st lx =>
      (intRange 0 (CHUNK_SIZE - 1)).foldl
        (fun st2 lz => decorateColumn hm bm worldX worldZ st2 lx lz) st)
    (c, r)

/-- `StructureGenerator.generate` over explicit streams: phase 1 with the
dedicated structure stream `s`, then phase 2 with the decoration stream
`r` as returned by phase 1. -/
def generateWith (c : Chunk) (hm : Int → Int → Int) (bm : BiomeMapM)
    (worldX worldZ : Int) (r s : RandState) : Chunk :=
  let p1 := placeStructuresWith c hm bm worldX worldZ r s
  (decorateAll p1.1 hm bm worldX worldZ p1.2.1).1

/-- The per-chunk decoration hash of `StructureGenerator.chunkRng`. -/
def chunkRngSeed (seed : Nat) (worldX worldZ : Int) : Nat :=
  let h0 := js32 seed
  let h1 := h0 ^^^ jsToUint32 (worldX * 374761393)
  let h2 := h1 ^^^ jsToUint32 (worldZ * 668265263)
  js32 (imul (h2 ^^^ (h2 >>> 13)) 1274126177 + 0xa5b3c2d1)

/-- The per-chunk structure hash of `StructureGenerator.structureRng`. -/
def structureRngSeed (seed : Nat) (worldX worldZ : Int) : Nat :=
  let h0 := js32 (seed + 0x7f3a9c1d)
  let h1 := h0 ^^^ jsToUint32 (worldX * 597399067)
  let h2 := h1 ^^^ jsToUint32 (worldZ * 824521439)
  js32 (imul (h2 ^^^ (h2 >>> 13)) 1946318589 + 0xb7e15163)

/-- `StructureGenerator.generate`. -/
def generate (seed : Nat) (c : Chunk) (hm : Int → Int → Int)
    (bm : BiomeMapM) (worldX worldZ : Int) : Chunk :=
  generateWith c hm bm worldX worldZ
    ⟨mulberryStream (chunkRngSeed seed worldX worldZ), 0⟩
    ⟨mulberryStream (structureRngSeed seed worldX worldZ), 0⟩

end StructureGenerator

-- ---------------------------------------------------------------------------
-- TerrainGenerator (TerrainGenerator.ts)
-- ---------------------------------------------------------------------------

namespace TerrainGenerator

/-- The `BIOME_HEIGHT` table: (minHeight, maxHeight, amplitude). -/
def BIOME_HEIGHT : Biome → Int × Int × ℚ
  | Biome.PLAINS => (60, 72, 1/2)
  | Biome.FOREST => (62, 76, 55/100)
  | Biome.DESERT => (62, 68, 1/4)
  | Biome.TAIGA => (62, 76, 55/100)
  | Biome.MOUNTAINS => (70, 130, 1)
  | Biome.OCEAN => (30, 58, 6/10)
  | Biome.BEACH => (60, 64, 15/100)
  | Biome.TUNDRA => (62, 70, 35/100)
  | Biome.JUNGLE => (60, 76, 6/10)
  | Biome.SWAMP => (58, 64, 2/10)

/-- The external pure inputs of the generation pipeline.  The six height
octaves, the mountain noise and the biome noise fields are values produced
by the external simplex-noise library (not part of this repository),
modelled as arbitrary pure functions per the Noise Field purity contract.
`cavePass` and `orePass` are modelled from the spec: `CaveGenerator` and
`OreGenerator` are not under `src/`; per the spec failure policy every
generator pass is a pure function of (seed, chunk coordinates, block grid
state), which is exactly how they appear here. -/
structure Oracles where
  heightOctave : Nat → ℚ → ℚ → ℚ
  mountainNoise : ℚ → ℚ → ℚ
  biomeMap : BiomeMapM
  cavePass : Int → Int → Chunk → Chunk
  orePass : Int → Int → Chunk → Chunk

/-- `TerrainGenerator.sampleHeightNoise`: 6 octaves, persistence 0.5,
lacunarity 2.0, base frequency 0.005, normalized to about [0, 1]. -/
def sampleHeightNoise (O : Oracles) (wx wz : Int) : ℚ :=
  let acc := (List.range 6).foldl
    (fun (st : ℚ × ℚ × ℚ × ℚ) i =>
      let value := st.1
      let amplitude := st.2.1
      let frequency := st.2.2.1
      let maxAmplitude := st.2.2.2
      ( value + O.heightOctave i ((wx : ℚ) * frequency) ((wz : ℚ) * frequency) * amplitude
      , amplitude * (1/2)
      , frequency * 2
      , maxAmplitude + amplitude ))
    (0, 1, 5/1000, 0)
  (acc.1 / acc.2.2.2 + 1) * (1/2)

/-- `TerrainGenerator.isMountainRegion` (scale 0.001, threshold 0.45). -/
def isMountainRegion (O : Oracles) (wx wz : Int) : Bool :=
  decide ((O.mountainNoise ((wx : ℚ) * (1/1000)) ((wz : ℚ) * (1/1000)) + 1) * (1/2)
            > 45/100)

/-- The effective biome after the mountain override applied by
`TerrainGenerator.buildTerrain` and `placeTrees`. -/
def effectiveBiome (O : Oracles) (wx wz : Int) : Biome :=
  let biome := O.biomeMap.getBiome wx wz
  if biome ≠ Biome.OCEAN ∧ biome ≠ Biome.BEACH ∧ isMountainRegion O wx wz then
    Biome.MOUNTAINS
  else biome

/-- The clamped surface height of one world column, as computed in
`TerrainGenerator.buildTerrain`. -/
def computeHeight (O : Oracles) (wx wz : Int) : Int :=
  let biome := effectiveBiome O wx wz
  let cfg := BIOME_HEIGHT biome
  let range : ℚ := ((cfg.2.1 - cfg.1 : Int) : ℚ)
  let noiseVal := sampleHeightNoise O wx wz
  let surfaceHeight :=
    jsFloor ((cfg.1 : ℚ) + noiseVal * range * cfg.2.2 +
             (1 - cfg.2.2) * range * (1/2))
  max 1 (min surfaceHeight (CHUNK_HEIGHT - 1))

/-- The heightmap produced by `buildTerrain` (each entry is a pure
function of the world coordinates). -/
def heightmapOf (O : Oracles) (worldX worldZ : Int) : Int → Int → Int :=
  fun lx lz => computeHeight O (worldX + lx) (worldZ + lz)

/-- `TerrainGenerator.getSurfaceBlock`. -/
def getSurfaceBlock : Biome → Tag
  | Biome.PLAINS => BlockType.GRASS
  | Biome.FOREST => BlockType.GRASS
  | Biome.DESERT => BlockType.SAND
  | Biome.TAIGA => BlockType.GRASS
  | Biome.MOUNTAINS => BlockType.STONE
  | Biome.OCEAN => BlockType.SAND
  | Biome.BEACH => BlockType.SAND
  | Biome.TUNDRA => BlockType.SNOW
  | Biome.JUNGLE => BlockType.GRASS
  | Biome.SWAMP => BlockType.GRASS

/-- `TerrainGenerator.getSubSurfaceBlock`. -/
def getSubSurfaceBlock : Biome → Tag
  | Biome.DESERT => BlockType.SAND
  | Biome.BEACH => BlockType.SAND
  | Biome.OCEAN => BlockType.SAND
  | Biome.MOUNTAINS => BlockType.STONE
  | _ => BlockType.DIRT

/-- The tag `TerrainGenerator.fillColumn` writes at height `y` of a column
with the given surface height and biome (the `if` chain of the source;
every branch writes exactly this tag at (lx, y, lz)). -/
def fillColumnCell (surfaceHeight : Int) (biome : Biome) (y : Int) : Tag :=
  if y = 0 then BlockType.BEDROCK
  else if y < surfaceHeight - 4 then BlockType.STONE
  else if y < surfaceHeight then getSubSurfaceBlock biome
  else if y = surfaceHeight then getSurfaceBlock biome
  else if y ≤ SEA_LEVEL ∧ biome = Biome.OCEAN then BlockType.WATER
  else if y ≤ SEA_LEVEL ∧ surfaceHeight < SEA_LEVEL then BlockType.WATER
  else BlockType.AIR

/-- `TerrainGenerator.fillColumn`. -/
def fillColumn (c : Chunk) (lx lz : Int) (surfaceHeight : Int)
    (biome : Biome) : Chunk :=
  (intRange 0 (CHUNK_HEIGHT - 1)).foldl
    (fun c1 y => c1.setBlock lx y lz (fillColumnCell surfaceHeight biome y)) c

/-- `TerrainGenerator.buildTerrain`: fill every column; the heightmap it
returns is `heightmapOf`. -/
def buildTerrain (O : Oracles) (c : Chunk) (worldX worldZ : Int) : Chunk :=
  (intRange 0 (CHUNK_SIZE - 1)).foldl
    (fun c1 lx =>
      (intRange 0 (CHUNK_SIZE - 1)).foldl
        (fun c2 lz =>
          fillColumn c2 lx lz (computeHeight O (worldX + lx) (worldZ + lz))
            (effectiveBiome O (worldX + lx) (worldZ + lz)))
        c1)
    c

/-- `TerrainGenerator.shouldPlaceTree`. -/
def shouldPlaceTree (biome : Biome) (r : RandState) :
    Option TreeType × RandState :=
  let (roll, r1) := r.draw
  match biome with
  | Biome.FOREST =>
    if roll < 8/100 then
      let (v, r2) := r1.draw
      (some (if v < 7/10 then TreeType.OAK else TreeType.BIRCH), r2)
    else (none, r1)
  | Biome.PLAINS => if roll < 1/100 then (some TreeType.OAK, r1) else (none, r1)
  | Biome.TAIGA => if roll < 6/100 then (some TreeType.SPRUCE, r1) else (none, r1)
  | Biome.MOUNTAINS => if roll < 2/100 then (some TreeType.SPRUCE, r1) else (none, r1)
  | Biome.TUNDRA => if roll < 5/1000 then (some TreeType.SPRUCE, r1) else (none, r1)
  | Biome.JUNGLE => if roll < 1/10 then (some TreeType.JUNGLE, r1) else (none, r1)
  | Biome.SWAMP => if roll < 3/100 then (some TreeType.OAK, r1) else (none, r1)
  | _ => (none, r1)

/-- One column of `TerrainGenerator.placeTrees`. -/
def placeTreesColumn (O : Oracles) (hm : Int → Int → Int)
    (worldX worldZ : Int) (st : Chunk × RandState) (lx lz : Int) :
    Chunk × RandState :=
  let (c, r) := st
  let biome := effectiveBiome O (worldX + lx) (worldZ + lz)
  let surfaceY := hm lx lz
  if surfaceY < SEA_LEVEL ∧ biome = Biome.OCEAN then (c, r)
  else
    match shouldPlaceTree biome r with
    | (none, r1) => (c, r1)
    | (some treeInfo, r1) =>
      let surfaceBlock := c.getBlock lx surfaceY lz
      if surfaceBlock ≠ BlockType.GRASS ∧ surfaceBlock ≠ BlockType.DIRT ∧
         surfaceBlock ≠ BlockType.SNOW then (c, r1)
      else TreeGenerator.generateTree c lx (surfaceY + 1) lz treeInfo r1

/-- The per-chunk hash feeding `mulberry32` in
`TerrainGenerator.chunkRng`. -/
def chunkRngSeed (seed : Nat) (worldX worldZ : Int) : Nat :=
  let h0 := js32 seed
  let h1 := h0 ^^^ jsToUint32 (worldX * 374761393)
  let h2 := h1 ^^^ jsToUint32 (worldZ * 668265263)
  imul (h2 ^^^ (h2 >>> 13)) 1274126177

/-- `TerrainGenerator.placeTrees`. -/
def placeTrees (O : Oracles) (seed : Nat) (c : Chunk)
    (hm : Int → Int → Int) (worldX worldZ : Int) : Chunk :=
  ((intRange 0 (CHUNK_SIZE - 1)).foldl
    (fun st lx =>
      (intRange 0 (CHUNK_SIZE - 1)).foldl
        (fun st2 lz => placeTreesColumn O hm worldX worldZ st2 lx lz) st)
    (c, (⟨mulberryStream (chunkRngSeed seed worldX worldZ), 0⟩ : RandState))).1

/-- `TerrainGenerator.generateChunk`: the full fixed-order pipeline. -/
def generateChunk (O : Oracles) (seed : Nat) (cx cz : Int) (c : Chunk) :
    Chunk :=
  let worldX := cx * CHUNK_SIZE
  let worldZ := cz * CHUNK_SIZE
  let c1 := buildTerrain O c worldX worldZ
  let c2 := O.cavePass worldX worldZ c1
  let c3 := O.orePass worldX worldZ c2
  let c4 := MineshaftGenerator.generate seed c3 worldX worldZ
  let c5 := placeTrees O seed c4 (heightmapOf O worldX worldZ) worldX worldZ
  StructureGenerator.generate seed c5 (heightmapOf O worldX worldZ)
    O.biomeMap worldX worldZ

end TerrainGenerator

-- ---------------------------------------------------------------------------
-- Specification predicates and concrete fixtures
-- ---------------------------------------------------------------------------

/-- Grid cells outside the chunk are untouched by `c' = f c`. -/
def gridOutsidePreserved (c c' : Chunk) : Prop :=
  ∀ x y z, ¬ chunkInBounds x y z → c'.grid x y z = c.grid x y z

/-- The write log only grows, and every new entry satisfies `P`. -/
def writesExtend (P : WriteRec → Prop) (c c' : Chunk) : Prop :=
  ∀ e, e ∈ c'.writes → e ∈ c.writes ∨ P e

/-- A generation step from `c` to `c'` that never touches out-of-bounds
cells and whose every applied write satisfies `P`. -/
def ChunkEvolve (P : WriteRec → Prop) (c c' : Chunk) : Prop :=
  gridOutsidePreserved c c' ∧ writesExtend P c c'

/-- A mineshaft write is a carve only over non-bedrock, non-water cells. -/
def mineshaftWriteOk (e : WriteRec) : Prop :=
  e.new = BlockType.AIR → e.old ≠ BlockType.BEDROCK ∧ e.old ≠ BlockType.WATER

/-- A tree write of a sphere-canopy leaf lands only on air. -/
def sphereLeafWriteOk (e : WriteRec) : Prop :=
  (e.new = BlockType.LEAVES_OAK ∨ e.new = BlockType.LEAVES_BIRCH ∨
   e.new = BlockType.LEAVES_JUNGLE) → e.old = BlockType.AIR

/-- Top of the water run left by `fillColumn`: sea level when the surface
dips below it, otherwise the surface itself (empty water run). -/
def waterTop (surfaceHeight : Int) : Int :=
  if surfaceHeight < SEA_LEVEL then SEA_LEVEL else surfaceHeight

/-- A constant random stream (every draw returns `q`). -/
def constStream (q : ℚ) : RandState := ⟨fun _ => q, 0⟩

/-- Fixture: all stone except one water cell at (5, 21, 4), which sits on
the left support pillar position of a corridor starting at (5, 20, 5)
toward +X. -/
def mineC1pre : Chunk :=
  ⟨fun x y z =>
    if x = 5 ∧ y = 21 ∧ z = 4 then BlockType.WATER else BlockType.STONE, []⟩

/-- Fixture: all air except one stone cell at (11, 72, 8), inside the
radius-3 bottom leaf layer of a spruce placed at (8, 70, 8). -/
def spruceC2pre : Chunk :=
  ⟨fun x y z =>
    if x = 11 ∧ y = 72 ∧ z = 8 then BlockType.STONE else BlockType.AIR, []⟩

/-- Fixture: all stone except one air cell at (4, 12, 4), a floor cell of
the dungeon candidate at (2, 12, 2); both stone probes still pass. -/
def dungeonC7pre : Chunk :=
  ⟨fun x y z =>
    if x = 4 ∧ y = 12 ∧ z = 4 then BlockType.AIR else BlockType.STONE, []⟩

/-- Columns left open (air at y = 65) in the C9 fixture. -/
def c9window : List (Int × Int) := [(7, 5), (8, 4), (8, 5), (8, 6), (9, 5)]

/-- Fixture for the decoration-interference counterexample: sand up to
y = 64, stone capping y = 65 except over `c9window`, air above. -/
def structC9pre : Chunk :=
  ⟨fun x y z =>
    if y = 65 then
      (if (x, z) ∈ c9window then BlockType.AIR else BlockType.STONE)
    else if y ≤ 64 then BlockType.SAND
    else BlockType.AIR, []⟩

/-- A perfectly flat heightmap at 64. -/
def flatHm64 : Int → Int → Int := fun _ _ => 64

/-- A biome map whose noise fields are constant, classifying everywhere as
desert (temperature 0.9, moisture 0.1). -/
def desertBM : BiomeMapM := ⟨fun _ _ => 4/5, fun _ _ => -(4/5)⟩

/-- A sloped heightmap (height = x), nowhere flat within variation 1. -/
def slopeHm : Int → Int → Int := fun x _ => x

/-- Trivial oracle instances for concrete pipeline runs. -/
def trivOracles : TerrainGenerator.Oracles :=
  ⟨fun _ _ _ => 0, fun _ _ => 0, ⟨fun _ _ => 0, fun _ _ => 0⟩,
   fun _ _ c => c, fun _ _ c => c⟩

-- ---------------------------------------------------------------------------
-- Theorems: ChunkEvolve infrastructure
-- ---------------------------------------------------------------------------

theorem chunkEvolve_refl (P : WriteRec → Prop) (c : Chunk) : ChunkEvolve P c c :=
  ⟨fun _ _ _ _ => rfl, fun _ he => Or.inl he⟩

theorem chunkEvolve_trans {P : WriteRec → Prop} {a b c : Chunk}
    (h1 : ChunkEvolve P a b) (h2 : ChunkEvolve P b c) : ChunkEvolve P a c := by
  refine ⟨fun x y z hout => ?_, fun e he => ?_⟩
  · rw [h2.1 x y z hout, h1.1 x y z hout]
  · rcases h2.2 e he with hb | hp
    · exact h1.2 e hb
    · exact Or.inr hp

theorem chunkEvolve_setBlock (P : WriteRec → Prop) (c : Chunk)
    (x y z : Int) (t : Tag)
    (h : chunkInBounds x y z → P ⟨x, y, z, c.grid x y z, t⟩) :
    ChunkEvolve P c (c.setBlock x y z t) := by
  unfold Chunk.setBlock
  split
  · rename_i hin
    refine ⟨fun a b d hout => ?_, fun e he => ?_⟩
    · show (if a = x ∧ b = y ∧ d = z then t else c.grid a b d) = c.grid a b d
      rw [if_neg]
      rintro ⟨rfl, rfl, rfl⟩
      exact hout hin
    · rcases List.mem_cons.mp he with rfl | hmem
      · exact Or.inr (h hin)
      · exact Or.inl hmem
  · exact chunkEvolve_refl P c

theorem chunkEvolve_foldl {α : Type} (P : WriteRec → Prop)
    (f : Chunk → α → Chunk) (l : List α) (c : Chunk)
    (h : ∀ c' a, a ∈ l → ChunkEvolve P c' (f c' a)) :
    ChunkEvolve P c (l.foldl f c) := by
  induction l generalizing c with
  | nil => exact chunkEvolve_refl P c
  | cons a l ih =>
    refine chunkEvolve_trans (h c a (List.mem_cons_self a l)) ?_
    exact ih (f c a) (fun c' b hb => h c' b (List.mem_cons_of_mem a hb))

theorem chunkEvolve_foldl_fst {α β : Type} (P : WriteRec → Prop)
    (f : Chunk × β → α → Chunk × β) (l : List α) (s : Chunk × β)
    (h : ∀ s' a, a ∈ l → ChunkEvolve P s'.1 ((f s' a).1)) :
    ChunkEvolve P s.1 ((l.foldl f s).1) := by
  induction l generalizing s with
  | nil => exact chunkEvolve_refl P s.1
  | cons a l ih =>
    refine chunkEvolve_trans (h s a (List.mem_cons_self a l)) ?_
    exact ih (f s a) (fun s' b hb => h s' b (List.mem_cons_of_mem a hb))

theorem chunkEvolve_ite (P : WriteRec → Prop) (c c1 c2 : Chunk) (p : Prop)
    [Decidable p] (h1 : p → ChunkEvolve P c c1) (h2 : ¬p → ChunkEvolve P c c2) :
    ChunkEvolve P c (if p then c1 else c2) := by
  split
  · exact h1 (by assumption)
  · exact h2 (by assumption)

-- ---------------------------------------------------------------------------
-- Theorems: mineshaft write discipline
-- ---------------------------------------------------------------------------

theorem mineshaft_setBlock_ne_air_evolve (c : Chunk) (x y z : Int) (t : Tag)
    (ht : t ≠ BlockType.AIR) : ChunkEvolve mineshaftWriteOk c (c.setBlock x y z t) :=
  chunkEvolve_setBlock _ c x y z t (fun _ hnew => absurd hnew ht)

theorem mineshaft_carveCell_evolve (c : Chunk) (bx yv bz : Int) :
    ChunkEvolve mineshaftWriteOk c (MineshaftGenerator.carveCell c bx yv bz) := by
  unfold MineshaftGenerator.carveCell
  split
  · exact chunkEvolve_refl _ c
  · split
    · exact chunkEvolve_refl _ c
    · rename_i hnot
      apply chunkEvolve_setBlock
      intro hin _
      have hg : c.getBlock bx yv bz = c.grid bx yv bz := by
        unfold Chunk.getBlock
        rw [if_pos hin]
      push_neg at hnot
      exact ⟨hg ▸ hnot.1, hg ▸ hnot.2⟩

theorem mineshaft_carveColumn_evolve (c : Chunk) (bx sy bz : Int) :
    ChunkEvolve mineshaftWriteOk c (MineshaftGenerator.carveColumn c bx sy bz) := by
  unfold MineshaftGenerator.carveColumn
  exact chunkEvolve_foldl _ _ _ _
    (fun c' a _ => mineshaft_carveCell_evolve c' bx (sy + a) bz)

theorem mineshaft_placeTorch_evolve (c : Chunk) (x y z : Int) :
    ChunkEvolve mineshaftWriteOk c (MineshaftGenerator.placeTorch c x y z) := by
  unfold MineshaftGenerator.placeTorch
  split
  · exact mineshaft_setBlock_ne_air_evolve c x y z BlockType.TORCH (by decide)
  · exact chunkEvolve_refl _ c

theorem mineshaft_pillar_evolve (c : Chunk) (x z sy : Int) :
    ChunkEvolve mineshaftWriteOk c
      (if MineshaftGenerator.inBounds x z = true then
        (intRange 0 2).foldl
          (fun cc dy => cc.setBlock x (sy + dy) z BlockType.WOOD_OAK) c
       else c) := by
  split
  · exact chunkEvolve_foldl _ _ _ _
      (fun c' a _ => mineshaft_setBlock_ne_air_evolve c' x (sy + a) z _ (by decide))
  · exact chunkEvolve_refl _ c

theorem mineshaft_placeSupport_evolve (c : Chunk) (cx sy cz px pz : Int) :
    ChunkEvolve mineshaftWriteOk c
      (MineshaftGenerator.placeSupport c cx sy cz px pz) := by
  unfold MineshaftGenerator.placeSupport
  refine chunkEvolve_trans
    (chunkEvolve_trans (mineshaft_pillar_evolve c (cx - px) (cz - pz) sy)
      (mineshaft_pillar_evolve _ (cx + px) (cz + pz) sy))
    (chunkEvolve_foldl _ _ _ _ ?_)
  intro c' a _
  split
  · exact mineshaft_setBlock_ne_air_evolve _ _ _ _ _ (by decide)
  · exact chunkEvolve_refl _ _

theorem mineshaft_plankPart_evolve (c : Chunk) (cx cz sy : Int) :
    ChunkEvolve mineshaftWriteOk c
      (if MineshaftGenerator.isStoneOrAir c cx (sy - 1) cz = true then
        c.setBlock cx (sy - 1) cz BlockType.PLANKS_OAK
       else c) := by
  split
  · exact mineshaft_setBlock_ne_air_evolve c cx (sy - 1) cz _ (by decide)
  · exact chunkEvolve_refl _ c

theorem mineshaft_supportPart_evolve (c : Chunk) (cx sy cz px pz : Int)
    (step : Nat) :
    ChunkEvolve mineshaftWriteOk c
      (if step % 4 = 0 then MineshaftGenerator.placeSupport c cx sy cz px pz
       else c) := by
  split
  · exact mineshaft_placeSupport_evolve c cx sy cz px pz
  · exact chunkEvolve_refl _ c

theorem mineshaft_torchPart_evolve (c : Chunk) (cx cz sy px pz : Int)
    (step : Nat) :
    ChunkEvolve mineshaftWriteOk c
      (if step % 8 = 4 ∧ step > 0 then
        MineshaftGenerator.placeTorch c (cx + px) (sy + 1) (cz + pz)
       else c) := by
  split
  · exact mineshaft_placeTorch_evolve c (cx + px) (sy + 1) (cz + pz)
  · exact chunkEvolve_refl _ c

theorem mineshaft_corridorStepBody_evolve (c : Chunk)
    (cx cz sy px pz : Int) (step : Nat) :
    ChunkEvolve mineshaftWriteOk c
      (MineshaftGenerator.corridorStepBody c cx cz sy px pz step) := by
  unfold MineshaftGenerator.corridorStepBody
  refine chunkEvolve_trans ?_ (mineshaft_torchPart_evolve _ cx cz sy px pz step)
  refine chunkEvolve_trans ?_ (mineshaft_supportPart_evolve _ cx sy cz px pz step)
  refine chunkEvolve_trans ?_ (mineshaft_plankPart_evolve _ cx cz sy)
  exact chunkEvolve_foldl _ _ _ _
    (fun c' a _ => mineshaft_carveColumn_evolve c' (cx + px * a) sy (cz + pz * a))

theorem mineshaft_carveCorridorGo_evolve (sx sy sz dx dz px pz : Int)
    (c : Chunk) (step remaining : Nat) :
    ChunkEvolve mineshaftWriteOk c
      (MineshaftGenerator.carveCorridorGo sx sy sz dx dz px pz c step remaining) := by
  induction remaining generalizing c step with
  | zero => exact chunkEvolve_refl _ c
  | succ n ih =>
    rw [MineshaftGenerator.carveCorridorGo]
    split
    · exact chunkEvolve_refl _ c
    · exact chunkEvolve_trans
        (mineshaft_corridorStepBody_evolve c _ _ sy px pz step) (ih _ _)

theorem mineshaft_carveCorridor_evolve (c : Chunk) (sx sy sz dx dz len : Int) :
    ChunkEvolve mineshaftWriteOk c
      (MineshaftGenerator.carveCorridor c sx sy sz dx dz len) := by
  unfold MineshaftGenerator.carveCorridor
  exact mineshaft_carveCorridorGo_evolve sx sy sz dx dz _ _ c 0 len.toNat

theorem mineshaft_carveRoom_evolve (c : Chunk) (sx sy sz w h d : Int) :
    ChunkEvolve mineshaftWriteOk c
      (MineshaftGenerator.carveRoom c sx sy sz w h d) := by
  unfold MineshaftGenerator.carveRoom
  refine chunkEvolve_foldl _ _ _ _ (fun c1 x _ => ?_)
  refine chunkEvolve_foldl _ _ _ _ (fun c2 z _ => ?_)
  split
  · exact chunkEvolve_refl _ c2
  · exact chunkEvolve_foldl _ _ _ _
      (fun c3 dy _ => mineshaft_carveCell_evolve c3 x (sy + dy) z)

theorem mineshaft_networkBranch_evolve (startX baseY startZ : Int)
    (dirs : List (Int × Int)) (st : Chunk × RandState) (b : Nat) :
    ChunkEvolve mineshaftWriteOk st.1
      ((MineshaftGenerator.networkBranch startX baseY startZ dirs st b).1) := by
  obtain ⟨c, r⟩ := st
  unfold MineshaftGenerator.networkBranch
  dsimp only
  split
  · split
    · dsimp only
      exact chunkEvolve_trans
        (mineshaft_carveCorridor_evolve c startX baseY startZ _ _ _)
        (mineshaft_carveCorridor_evolve _ _ baseY _ _ _ _)
    · dsimp only
      exact mineshaft_carveCorridor_evolve c startX baseY startZ _ _ _
  · dsimp only
    exact mineshaft_carveCorridor_evolve c startX baseY startZ _ _ _

theorem mineshaft_buildNetwork_evolve (c : Chunk) (r : RandState)
    (startX baseY startZ : Int) :
    ChunkEvolve mineshaftWriteOk c
      (MineshaftGenerator.buildNetwork c r startX baseY startZ) := by
  unfold MineshaftGenerator.buildNetwork
  refine chunkEvolve_trans ?_
    (chunkEvolve_foldl_fst _ _ _ _
      (fun s' a _ => mineshaft_networkBranch_evolve startX baseY startZ _ s' a))
  exact chunkEvolve_trans
    (mineshaft_carveRoom_evolve c (startX - 1) baseY (startZ - 1) 3 3 3)
    (mineshaft_placeTorch_evolve _ startX (baseY + 2) startZ)

theorem mineshaft_generate_evolve (seed : Nat) (c : Chunk) (worldX worldZ : Int) :
    ChunkEvolve mineshaftWriteOk c
      (MineshaftGenerator.generate seed c worldX worldZ) := by
  unfold MineshaftGenerator.generate
  dsimp only
  split
  · exact chunkEvolve_refl _ c
  · split
    · exact chunkEvolve_refl _ c
    · exact mineshaft_buildNetwork_evolve c _ _ _ _

/-- C1 (amended): mineshaft generation never touches cells outside the
chunk (out-of-bounds writes are silently dropped), and every applied
write of AIR (the hub-room and corridor carving) happens only on cells
that were neither BEDROCK nor WATER.  (Support pillars, top beams and
torches write wood/planks/torch unconditionally at in-bounds cells, so
they can replace WATER; the original claim fails there.) -/
theorem mineshaft_generate_preserves (seed : Nat) (worldX worldZ : Int)
    (c : Chunk) :
    (∀ x y z, ¬ chunkInBounds x y z →
      (MineshaftGenerator.generate seed c worldX worldZ).grid x y z = c.grid x y z) ∧
    (∀ e, e ∈ (MineshaftGenerator.generate seed c worldX worldZ).writes →
      e ∈ c.writes ∨ (e.new = BlockType.AIR →
        e.old ≠ BlockType.BEDROCK ∧ e.old ≠ BlockType.WATER)) :=
  ⟨(mineshaft_generate_evolve seed c worldX worldZ).1,
   (mineshaft_generate_evolve seed c worldX worldZ).2⟩

/-- C1 witness: a concrete out-of-bounds cell is untouched by a concrete
mineshaft generation run. -/
theorem mineshaft_generate_preserves_witness :
    (¬ chunkInBounds 20 5 0) ∧
    (MineshaftGenerator.generate 0 emptyChunk 0 0).grid 20 5 0 =
      emptyChunk.grid 20 5 0 :=
  ⟨by decide, (mineshaft_generate_preserves 0 0 0 emptyChunk).1 20 5 0 (by decide)⟩

/-- C1 counterexample: a corridor carved from (5, 20, 5) toward +X places
a support pillar that overwrites the WATER cell at (5, 21, 4) with oak
wood, so mineshaft generation does not leave every WATER cell unchanged. -/
theorem mineshaft_support_overwrites_water :
    mineC1pre.grid 5 21 4 = BlockType.WATER ∧
    (MineshaftGenerator.carveCorridor mineC1pre 5 20 5 1 0 1).grid 5 21 4 =
      BlockType.WOOD_OAK ∧
    BlockType.WOOD_OAK ≠ BlockType.WATER := by
  refine ⟨by decide, ?_, by decide⟩
  decide

-- ---------------------------------------------------------------------------
-- Theorems: tree write discipline
-- ---------------------------------------------------------------------------

theorem tree_setIfInBounds_other_evolve (c : Chunk) (lx y lz : Int) (t : Tag)
    (ht : ¬(t = BlockType.LEAVES_OAK ∨ t = BlockType.LEAVES_BIRCH ∨
            t = BlockType.LEAVES_JUNGLE)) :
    ChunkEvolve sphereLeafWriteOk c (TreeGenerator.setIfInBounds c lx y lz t) := by
  unfold TreeGenerator.setIfInBounds
  split
  · exact chunkEvolve_setBlock _ _ _ _ _ _ (fun _ h => absurd h ht)
  · exact chunkEvolve_refl _ c

theorem tree_leafSphereCell_evolve (cx cy cz : Int) (radius : Int)
    (leafBlock : Tag) (c : Chunk) (dx dy dz : Int) :
    ChunkEvolve sphereLeafWriteOk c
      (TreeGenerator.leafSphereCell cx cy cz radius leafBlock c dx dy dz) := by
  unfold TreeGenerator.leafSphereCell
  split
  · exact chunkEvolve_refl _ c
  · split
    · split
      · rename_i hair
        apply chunkEvolve_setBlock
        intro hin _
        unfold Chunk.getBlock at hair
        rwa [if_pos hin] at hair
      · exact chunkEvolve_refl _ c
    · exact chunkEvolve_refl _ c

theorem tree_placeLeafSphere_evolve (c : Chunk) (cx cy cz radius : Int)
    (leafBlock : Tag) :
    ChunkEvolve sphereLeafWriteOk c
      (TreeGenerator.placeLeafSphere c cx cy cz radius leafBlock) := by
  unfold TreeGenerator.placeLeafSphere
  refine chunkEvolve_foldl _ _ _ _ (fun c1 dx _ => ?_)
  refine chunkEvolve_foldl _ _ _ _ (fun c2 dy _ => ?_)
  exact chunkEvolve_foldl _ _ _ _
    (fun c3 dz _ => tree_leafSphereCell_evolve cx cy cz radius leafBlock c3 dx dy dz)

theorem tree_placeTrunk_evolve (c : Chunk) (lx y lz trunkHeight : Int)
    (wood : Tag)
    (hw : ¬(wood = BlockType.LEAVES_OAK ∨ wood = BlockType.LEAVES_BIRCH ∨
            wood = BlockType.LEAVES_JUNGLE)) :
    ChunkEvolve sphereLeafWriteOk c
      (TreeGenerator.placeTrunk c lx y lz trunkHeight wood) := by
  unfold TreeGenerator.placeTrunk
  exact chunkEvolve_foldl _ _ _ _
    (fun c1 dy _ => tree_setIfInBounds_other_evolve c1 lx (y + dy) lz wood hw)

theorem tree_spruceLayer_evolve (lx y lz trunkHeight leafBottomY
    totalLeafLayers : Int) (c : Chunk) (ly : Int) :
    ChunkEvolve sphereLeafWriteOk c
      (TreeGenerator.spruceLayer lx y lz trunkHeight leafBottomY
        totalLeafLayers c ly) := by
  unfold TreeGenerator.spruceLayer
  refine chunkEvolve_foldl _ _ _ _ (fun c1 dx _ => ?_)
  refine chunkEvolve_foldl _ _ _ _ (fun c2 dz _ => ?_)
  split
  · exact chunkEvolve_refl _ c2
  · split
    · exact chunkEvolve_refl _ c2
    · exact tree_setIfInBounds_other_evolve c2 (lx + dx) ly (lz + dz) _ (by decide)

theorem tree_placeOakTree_evolve (c : Chunk) (lx y lz : Int) (r : RandState) :
    ChunkEvolve sphereLeafWriteOk c
      ((TreeGenerator.placeOakTree c lx y lz r).1) := by
  unfold TreeGenerator.placeOakTree
  dsimp only
  exact chunkEvolve_trans
    (tree_placeTrunk_evolve c lx y lz _ BlockType.WOOD_OAK (by decide))
    (tree_placeLeafSphere_evolve _ lx _ lz 2 _)

theorem tree_placeBirchTree_evolve (c : Chunk) (lx y lz : Int) (r : RandState) :
    ChunkEvolve sphereLeafWriteOk c
      ((TreeGenerator.placeBirchTree c lx y lz r).1) := by
  unfold TreeGenerator.placeBirchTree
  dsimp only
  exact chunkEvolve_trans
    (tree_placeTrunk_evolve c lx y lz _ BlockType.WOOD_BIRCH (by decide))
    (tree_placeLeafSphere_evolve _ lx _ lz 2 _)

theorem tree_placeJungleTree_evolve (c : Chunk) (lx y lz : Int) (r : RandState) :
    ChunkEvolve sphereLeafWriteOk c
      ((TreeGenerator.placeJungleTree c lx y lz r).1) := by
  unfold TreeGenerator.placeJungleTree
  dsimp only
  exact chunkEvolve_trans
    (tree_placeTrunk_evolve c lx y lz _ BlockType.WOOD_JUNGLE (by decide))
    (tree_placeLeafSphere_evolve _ lx _ lz 3 _)

theorem tree_placeSpruceTree_evolve (c : Chunk) (lx y lz : Int) (r : RandState) :
    ChunkEvolve sphereLeafWriteOk c
      ((TreeGenerator.placeSpruceTree c lx y lz r).1) := by
  have hs : ¬(BlockType.LEAVES_SPRUCE = BlockType.LEAVES_OAK ∨
      BlockType.LEAVES_SPRUCE = BlockType.LEAVES_BIRCH ∨
      BlockType.LEAVES_SPRUCE = BlockType.LEAVES_JUNGLE) := by decide
  have hw : ¬(BlockType.WOOD_SPRUCE = BlockType.LEAVES_OAK ∨
      BlockType.WOOD_SPRUCE = BlockType.LEAVES_BIRCH ∨
      BlockType.WOOD_SPRUCE = BlockType.LEAVES_JUNGLE) := by decide
  unfold TreeGenerator.placeSpruceTree
  dsimp only
  refine chunkEvolve_trans ?_
    (tree_setIfInBounds_other_evolve _ lx _ lz BlockType.LEAVES_SPRUCE hs)
  refine chunkEvolve_trans ?_
    (chunkEvolve_foldl _ _ _ _
      (fun c1 ly _ => tree_spruceLayer_evolve lx y lz _ _ _ c1 ly))
  exact tree_placeTrunk_evolve c lx y lz _ BlockType.WOOD_SPRUCE hw

/-- C2 (amended): every tree block whose coordinates fall outside the
chunk bounds is silently dropped, and every applied leaf write of the
sphere-canopy species (oak, birch, jungle) lands on a cell that held AIR.
(Spruce cone leaves are written without the air check, so a spruce leaf
can overwrite a solid block; the original claim fails there.) -/
theorem tree_generate_preserves (treeType : TreeType) (r : RandState)
    (c : Chunk) (lx y lz : Int) :
    (∀ a b d, ¬ chunkInBounds a b d →
      (TreeGenerator.generateTree c lx y lz treeType r).1.grid a b d = c.grid a b d) ∧
    (∀ e, e ∈ (TreeGenerator.generateTree c lx y lz treeType r).1.writes →
      e ∈ c.writes ∨
        ((e.new = BlockType.LEAVES_OAK ∨ e.new = BlockType.LEAVES_BIRCH ∨
          e.new = BlockType.LEAVES_JUNGLE) → e.old = BlockType.AIR)) := by
  have h : ChunkEvolve sphereLeafWriteOk c
      ((TreeGenerator.generateTree c lx y lz treeType r).1) := by
    cases treeType with
    | OAK => exact tree_placeOakTree_evolve c lx y lz r
    | BIRCH => exact tree_placeBirchTree_evolve c lx y lz r
    | SPRUCE => exact tree_placeSpruceTree_evolve c lx y lz r
    | JUNGLE => exact tree_placeJungleTree_evolve c lx y lz r
  exact ⟨h.1, h.2⟩

/-- C2 witness: a concrete out-of-bounds cell is untouched by a concrete
oak tree placement. -/
theorem tree_generate_preserves_witness :
    (¬ chunkInBounds 16 70 8) ∧
    (TreeGenerator.generateTree emptyChunk 8 70 8 TreeType.OAK
      (constStream 0)).1.grid 16 70 8 = emptyChunk.grid 16 70 8 :=
  ⟨by decide,
   (tree_generate_preserves TreeType.OAK (constStream 0) emptyChunk 8 70 8).1
     16 70 8 (by decide)⟩

/-- C2 counterexample: a spruce tree placed at (8, 70, 8) writes a spruce
leaf over the STONE cell at (11, 72, 8), so leaves do not only overwrite
air. -/
theorem spruce_leaf_overwrites_stone :
    spruceC2pre.grid 11 72 8 = BlockType.STONE ∧
    (TreeGenerator.placeSpruceTree spruceC2pre 8 70 8 (constStream 0)).1.grid
      11 72 8 = BlockType.LEAVES_SPRUCE ∧
    BlockType.STONE ≠ BlockType.AIR := by
  refine ⟨by decide, ?_, by decide⟩
  with_unfolding_all decide

-- ---------------------------------------------------------------------------
-- Theorems: biome decision table (C4)
-- ---------------------------------------------------------------------------

theorem getBiomeTM_eq_bands (t m : ℚ) :
    BiomeMap.getBiomeTM t m =
      BiomeMap.biomeOfBands (BiomeMap.tempBand t) (BiomeMap.moistClass m) := by
  unfold BiomeMap.getBiomeTM BiomeMap.biomeOfBands BiomeMap.tempBand
    BiomeMap.moistClass
  simp only [List.getD_cons_zero, List.getD_cons_succ, decide_eq_true_eq]
  split_ifs <;> first | rfl | contradiction

/-- C4 (amended): the decision table returns exactly one biome for every
(temperature, moisture) pair, and depends on the inputs only through the
closed-lower temperature band (a temperature exactly at a documented
threshold falls into the upper band) and the strict moisture comparisons
(a moisture exactly at a threshold falls into the lower band, because the
source compares moisture with strict `>`). -/
theorem getBiomeTM_band_congruence (t t' m m' : ℚ)
    (ht : BiomeMap.tempBand t = BiomeMap.tempBand t')
    (hm : BiomeMap.moistClass m = BiomeMap.moistClass m') :
    BiomeMap.getBiomeTM t m = BiomeMap.getBiomeTM t' m' := by
  rw [getBiomeTM_eq_bands, getBiomeTM_eq_bands, ht, hm]

/-- C4 witness: temperature 0.2 (exactly at the cold/cool threshold)
classifies like temperature 0.3 (inside the cool band). -/
theorem getBiomeTM_band_congruence_witness :
    BiomeMap.tempBand (2/10) = BiomeMap.tempBand (3/10) ∧
    BiomeMap.moistClass (4/10) = BiomeMap.moistClass (4/10) ∧
    BiomeMap.getBiomeTM (2/10) (4/10) = BiomeMap.getBiomeTM (3/10) (4/10) :=
  ⟨by with_unfolding_all decide, rfl,
   getBiomeTM_band_congruence (2/10) (3/10) (4/10) (4/10)
     (by with_unfolding_all decide) rfl⟩

/-- C4 counterexample: at moisture exactly 0.5 in the cool band the
closed-lower/open-upper reading of the spec puts (0.3, 0.5) in TAIGA, but
the code returns TUNDRA: the moisture boundary is open on the lower
bound, not closed. -/
theorem getBiomeTM_boundary_counterexample :
    BiomeMap.specClosedLowerBiome (3/10) (1/2) = Biome.TAIGA ∧
    BiomeMap.getBiomeTM (3/10) (1/2) = Biome.TUNDRA ∧
    Biome.TAIGA ≠ Biome.TUNDRA := by
  refine ⟨?_, ?_, by decide⟩ <;> with_unfolding_all decide

-- ---------------------------------------------------------------------------
-- Theorems: surface fill (C3)
-- ---------------------------------------------------------------------------

theorem intRange_mem (lo hi y : Int) : y ∈ intRange lo hi ↔ lo ≤ y ∧ y ≤ hi := by
  simp only [intRange, List.mem_map, List.mem_range]
  constructor
  · rintro ⟨i, hi2, rfl⟩
    omega
  · intro h
    refine ⟨(y - lo).toNat, by omega, by omega⟩

theorem intRange_nodup (lo hi : Int) : (intRange lo hi).Nodup := by
  unfold intRange
  refine List.Nodup.map ?_ (List.nodup_range _)
  intro a b hab
  simp only at hab
  omega

theorem setBlock_grid_other (c : Chunk) (x y z t : _) (a b d : Int)
    (h : ¬(a = x ∧ b = y ∧ d = z)) :
    (c.setBlock x y z t).grid a b d = c.grid a b d := by
  unfold Chunk.setBlock
  split
  · exact if_neg h
  · rfl

theorem setBlock_grid_self (c : Chunk) (x y z : Int) (t : Tag)
    (hin : chunkInBounds x y z) : (c.setBlock x y z t).grid x y z = t := by
  unfold Chunk.setBlock
  rw [if_pos hin]
  simp

theorem column_foldl_notmem (f : Int → Tag) (lx lz : Int) (l : List Int)
    (y : Int) (hy : y ∉ l) :
    ∀ c : Chunk,
      (l.foldl (fun c1 yy => c1.setBlock lx yy lz (f yy)) c).grid lx y lz =
        c.grid lx y lz := by
  induction l with
  | nil => intro c; rfl
  | cons a l ih =>
    intro c
    have hya : y ≠ a := fun h => hy (h ▸ List.mem_cons_self a l)
    rw [List.foldl_cons, ih (fun h => hy (List.mem_cons_of_mem a h)),
      setBlock_grid_other]
    rintro ⟨-, rfl, -⟩
    exact hya rfl

theorem column_foldl_mem (f : Int → Tag) (lx lz : Int) (l : List Int) :
    ∀ (c : Chunk) (y : Int), l.Nodup → y ∈ l → chunkInBounds lx y lz →
      (l.foldl (fun c1 yy => c1.setBlock lx yy lz (f yy)) c).grid lx y lz =
        f y := by
  induction l with
  | nil =>
    intro c y _ hy _
    cases hy
  | cons a l ih =>
    intro c y hnd hy hin
    rcases List.mem_cons.mp hy with rfl | hmem
    · have hnot : y ∉ l := (List.nodup_cons.mp hnd).1
      rw [List.foldl_cons, column_foldl_notmem f lx lz l y hnot,
        setBlock_grid_self c lx y lz (f y) hin]
    · rw [List.foldl_cons]
      exact ih _ y (List.nodup_cons.mp hnd).2 hmem hin

theorem fillColumn_grid (c : Chunk) (lx lz h : Int) (biome : Biome) (y : Int)
    (hin : chunkInBounds lx y lz) :
    (TerrainGenerator.fillColumn c lx lz h biome).grid lx y lz =
      TerrainGenerator.fillColumnCell h biome y := by
  unfold TerrainGenerator.fillColumn
  apply column_foldl_mem _ lx lz _ c y (intRange_nodup 0 (CHUNK_HEIGHT - 1))
  · rw [intRange_mem]
    obtain ⟨-, -, hy0, hy1, -, -⟩ := hin
    refine ⟨hy0, ?_⟩
    simp only [CHUNK_HEIGHT] at hy1 ⊢
    omega
  · exact hin

/-- C3: after the surface fill, every column of the chunk reads, from
y = 0 upward: bedrock at 0, a contiguous solid run (stone, then the biome
subsurface), exactly one surface block at the surface height, then a
contiguous run of water up to sea level when the surface dips below it
(otherwise no water), then air up to the top of the world; and the
heightmap entries driving the fill are always clamped into [1, 255]. -/
theorem fillColumn_column_shape :
    (∀ (O : TerrainGenerator.Oracles) (wx wz : Int),
      1 ≤ TerrainGenerator.computeHeight O wx wz ∧
      TerrainGenerator.computeHeight O wx wz ≤ CHUNK_HEIGHT - 1) ∧
    (∀ (c : Chunk) (lx lz h : Int) (biome : Biome),
      0 ≤ lx → lx < CHUNK_SIZE → 0 ≤ lz → lz < CHUNK_SIZE →
      1 ≤ h → h ≤ CHUNK_HEIGHT - 1 →
      (TerrainGenerator.fillColumn c lx lz h biome).grid lx 0 lz =
        BlockType.BEDROCK ∧
      (∀ y, 1 ≤ y → y < h - 4 →
        (TerrainGenerator.fillColumn c lx lz h biome).grid lx y lz =
          BlockType.STONE) ∧
      (∀ y, 1 ≤ y → h - 4 ≤ y → y < h →
        (TerrainGenerator.fillColumn c lx lz h biome).grid lx y lz =
          TerrainGenerator.getSubSurfaceBlock biome) ∧
      (TerrainGenerator.fillColumn c lx lz h biome).grid lx h lz =
        TerrainGenerator.getSurfaceBlock biome ∧
      (∀ y, h < y → y ≤ waterTop h →
        (TerrainGenerator.fillColumn c lx lz h biome).grid lx y lz =
          BlockType.WATER) ∧
      (∀ y, waterTop h < y → y ≤ CHUNK_HEIGHT - 1 →
        (TerrainGenerator.fillColumn c lx lz h biome).grid lx y lz =
          BlockType.AIR)) := by
  constructor
  · intro O wx wz
    unfold TerrainGenerator.computeHeight
    simp only [CHUNK_HEIGHT]
    constructor
    · exact le_max_left 1 _
    · apply max_le
      · omega
      · exact le_trans (min_le_right _ _) (by omega)
  · intro c lx lz h biome hlx0 hlx1 hlz0 hlz1 hh0 hh1
    simp only [CHUNK_SIZE, CHUNK_HEIGHT] at hlx1 hlz1 hh1
    have hwt : waterTop h = if h < 62 then 62 else h := by
      simp [waterTop, SEA_LEVEL]
    have hcell : ∀ y : Int, 0 ≤ y → y ≤ 255 →
        (TerrainGenerator.fillColumn c lx lz h biome).grid lx y lz =
          TerrainGenerator.fillColumnCell h biome y := by
      intro y hy0 hy1
      apply fillColumn_grid
      exact ⟨hlx0, by simp [CHUNK_SIZE]; omega, hy0,
        by simp [CHUNK_HEIGHT]; omega, hlz0, by simp [CHUNK_SIZE]; omega⟩
    refine ⟨?_, ?_, ?_, ?_, ?_, ?_⟩
    · rw [hcell 0 le_rfl (by omega)]
      simp [TerrainGenerator.fillColumnCell]
    · intro y hy1 hy2
      rw [hcell y (by omega) (by omega)]
      unfold TerrainGenerator.fillColumnCell
      rw [if_neg (by omega), if_pos hy2]
    · intro y hy1 hy2 hy3
      rw [hcell y (by omega) (by omega)]
      unfold TerrainGenerator.fillColumnCell
      rw [if_neg (by omega), if_neg (by omega), if_pos hy3]
    · rw [hcell h (by omega) (by omega)]
      unfold TerrainGenerator.fillColumnCell
      rw [if_neg (by omega), if_neg (by omega), if_neg (by omega), if_pos rfl]
    · intro y hy1 hy2
      rw [hwt] at hy2
      have hsea : h < 62 := by
        by_contra hns
        rw [if_neg hns] at hy2
        omega
      rw [if_pos hsea] at hy2
      rw [hcell y (by omega) (by omega)]
      unfold TerrainGenerator.fillColumnCell
      rw [if_neg (by omega), if_neg (by omega), if_neg (by omega),
        if_neg (by omega)]
      split
      · rfl
      · rw [if_pos ⟨by simp [SEA_LEVEL]; omega, by simp [SEA_LEVEL]; omega⟩]
    · intro y hy1 hy2
      rw [hwt] at hy1
      simp only [CHUNK_HEIGHT] at hy2
      rw [hcell y (by omega) (by omega)]
      have hyh : h < y := by
        by_cases hsea : h < 62
        · rw [if_pos hsea] at hy1
          omega
        · rw [if_neg hsea] at hy1
          omega
      unfold TerrainGenerator.fillColumnCell
      rw [if_neg (by omega), if_neg (by omega), if_neg (by omega),
        if_neg (by omega)]
      have hnw1 : ¬(y ≤ SEA_LEVEL ∧ biome = Biome.OCEAN) := by
        rintro ⟨hle, -⟩
        simp only [SEA_LEVEL] at hle
        by_cases hsea : h < 62
        · rw [if_pos hsea] at hy1
          omega
        · rw [if_neg hsea] at hy1
          omega
      have hnw2 : ¬(y ≤ SEA_LEVEL ∧ h < SEA_LEVEL) := by
        rintro ⟨hle, hlt⟩
        simp only [SEA_LEVEL] at hle hlt
        rw [if_pos hlt] at hy1
        omega
      rw [if_neg hnw1, if_neg hnw2]

/-- C3 witness: the column shape at a concrete in-range configuration. -/
theorem fillColumn_column_shape_witness :
    ((0 : Int) ≤ 0 ∧ (0 : Int) < CHUNK_SIZE ∧ (1 : Int) ≤ 64 ∧
      (64 : Int) ≤ CHUNK_HEIGHT - 1) ∧
    (TerrainGenerator.fillColumn emptyChunk 0 0 64 Biome.PLAINS).grid 0 0 0 =
      BlockType.BEDROCK :=
  ⟨by decide,
   ((fillColumn_column_shape.2 emptyChunk 0 0 64 Biome.PLAINS (by decide)
      (by decide) (by decide) (by decide) (by decide) (by decide))).1⟩

-- ---------------------------------------------------------------------------
-- Theorems: structure placement (C6, C7)
-- ---------------------------------------------------------------------------

theorem placeStructures_committed_len (c : Chunk) (hm : Int → Int → Int)
    (bm : BiomeMapM) (wx wz : Int) (r s : RandState) :
    ((StructureGenerator.placeStructuresWith c hm bm wx wz r s).2.2).length ≤ 1 := by
  have hw : ∀ c0 s0, ((StructureGenerator.wellStep c0 hm
      (bm.getBiome (wx + 8) (wz + 8)) s0).2.2).length ≤ 1 := by
    intro c0 s0
    unfold StructureGenerator.wellStep
    split
    · split
      · dsimp only
        split <;> simp
      · simp
    · simp
  have hcb : ∀ c0 s0, ((StructureGenerator.cabinStep c0 hm
      (bm.getBiome (wx + 8) (wz + 8)) s0).2.2).length ≤ 1 := by
    intro c0 s0
    unfold StructureGenerator.cabinStep
    split
    · split
      · dsimp only
        split <;> simp
      · simp
    · simp
  have hd : ∀ c0 s0, ((StructureGenerator.dungeonStep c0 s0).2.2).length ≤ 1 := by
    intro c0 s0
    unfold StructureGenerator.dungeonStep
    split
    · dsimp only
      split <;> simp
    · simp
  unfold StructureGenerator.placeStructuresWith
  dsimp only
  split
  · exact hw c s
  · split
    · exact hcb _ _
    · exact hd _ _

theorem tryPlaceDesertWell_spec (c : Chunk) (hm : Int → Int → Int)
    (r : RandState) :
    ((StructureGenerator.tryPlaceDesertWell c hm r).1 = true →
      StructureGenerator.isFlatArea hm
        (3 + jsFloor (r.stream r.idx * (CHUNK_SIZE - 5 - 6)))
        (3 + jsFloor (r.stream (r.idx + 1) * (CHUNK_SIZE - 5 - 6))) 5 5 1 = true) ∧
    ((StructureGenerator.tryPlaceDesertWell c hm r).1 = false →
      (StructureGenerator.tryPlaceDesertWell c hm r).2.1 = c) := by
  unfold StructureGenerator.tryPlaceDesertWell
  dsimp only
  split
  · rename_i hf
    exact ⟨fun _ => hf, fun hfalse => by simp at hfalse⟩
  · exact ⟨fun htrue => by simp at htrue, fun _ => rfl⟩

theorem tryPlaceCabin_spec (c : Chunk) (hm : Int → Int → Int)
    (r : RandState) :
    ((StructureGenerator.tryPlaceCabin c hm r).1 = true →
      StructureGenerator.isFlatArea hm
        (2 + jsFloor (r.stream r.idx * (CHUNK_SIZE - 7 - 4)))
        (2 + jsFloor (r.stream (r.idx + 1) * (CHUNK_SIZE - 5 - 4))) 7 5 2 = true) ∧
    ((StructureGenerator.tryPlaceCabin c hm r).1 = false →
      (StructureGenerator.tryPlaceCabin c hm r).2.1 = c) := by
  unfold StructureGenerator.tryPlaceCabin
  dsimp only
  split
  · rename_i hf
    exact ⟨fun _ => hf, fun hfalse => by simp at hfalse⟩
  · exact ⟨fun htrue => by simp at htrue, fun _ => rfl⟩

/-- C6: structure placement commits at most one large structure per chunk,
and a desert well (footprint 5x5, tolerance 1) or cabin (footprint 7x5,
tolerance 2) is committed only when its drawn footprint passes the
flatness check; when the flatness check fails the attempt returns false
and leaves the chunk exactly as it was. -/
theorem structure_placement_spec :
    (∀ (c : Chunk) (hm : Int → Int → Int) (bm : BiomeMapM) (wx wz : Int)
        (r s : RandState),
      ((StructureGenerator.placeStructuresWith c hm bm wx wz r s).2.2).length ≤ 1) ∧
    (∀ (c : Chunk) (hm : Int → Int → Int) (r : RandState),
      ((StructureGenerator.tryPlaceDesertWell c hm r).1 = true →
        StructureGenerator.isFlatArea hm
          (3 + jsFloor (r.stream r.idx * (CHUNK_SIZE - 5 - 6)))
          (3 + jsFloor (r.stream (r.idx + 1) * (CHUNK_SIZE - 5 - 6))) 5 5 1 = true) ∧
      ((StructureGenerator.tryPlaceDesertWell c hm r).1 = false →
        (StructureGenerator.tryPlaceDesertWell c hm r).2.1 = c)) ∧
    (∀ (c : Chunk) (hm : Int → Int → Int) (r : RandState),
      ((StructureGenerator.tryPlaceCabin c hm r).1 = true →
        StructureGenerator.isFlatArea hm
          (2 + jsFloor (r.stream r.idx * (CHUNK_SIZE - 7 - 4)))
          (2 + jsFloor (r.stream (r.idx + 1) * (CHUNK_SIZE - 5 - 4))) 7 5 2 = true) ∧
      ((StructureGenerator.tryPlaceCabin c hm r).1 = false →
        (StructureGenerator.tryPlaceCabin c hm r).2.1 = c)) :=
  ⟨placeStructures_committed_len,
   tryPlaceDesertWell_spec,
   tryPlaceCabin_spec⟩

/-- C6 witness: on a sloped heightmap the desert well flatness check
fails, the attempt reports failure, and the chunk is returned unchanged. -/
theorem structure_placement_spec_witness :
    (StructureGenerator.tryPlaceDesertWell emptyChunk slopeHm
      (constStream 0)).1 = false ∧
    (StructureGenerator.tryPlaceDesertWell emptyChunk slopeHm
      (constStream 0)).2.1 = emptyChunk :=
  ⟨by with_unfolding_all decide,
   (structure_placement_spec.2.1 emptyChunk slopeHm (constStream 0)).2
     (by with_unfolding_all decide)⟩

theorem tryPlaceDungeonGo_spec (c : Chunk) :
    ∀ (n : Nat) (r : RandState),
      ((StructureGenerator.tryPlaceDungeonGo c r n).1 = false →
        (StructureGenerator.tryPlaceDungeonGo c r n).2.1 = c) ∧
      ((StructureGenerator.tryPlaceDungeonGo c r n).1 = true →
        ∃ sx sy sz : Int,
          c.getBlock (sx + 3) (sy + 2) (sz + 3) = BlockType.STONE ∧
          c.getBlock (sx + 3) (sy + 5) (sz + 3) = BlockType.STONE ∧
          (StructureGenerator.tryPlaceDungeonGo c r n).2.1 =
            StructureGenerator.buildDungeon c sx sy sz 7 5) ∧
      (StructureGenerator.tryPlaceDungeonGo c r n).2.2.idx ≤ r.idx + 3 * n := by
  intro n
  induction n with
  | zero =>
    intro r
    rw [StructureGenerator.tryPlaceDungeonGo]
    exact ⟨fun _ => rfl, fun h => by simp at h, by dsimp only; omega⟩
  | succ n ih =>
    intro r
    rw [StructureGenerator.tryPlaceDungeonGo]
    dsimp only [RandState.draw]
    split
    · refine ⟨(ih _).1, (ih _).2.1, ?_⟩
      have h := (ih (⟨r.stream, r.idx + 1 + 1 + 1⟩ : RandState)).2.2
      dsimp only at h ⊢
      omega
    · split
      · refine ⟨(ih _).1, (ih _).2.1, ?_⟩
        have h := (ih (⟨r.stream, r.idx + 1 + 1 + 1⟩ : RandState)).2.2
        dsimp only at h ⊢
        omega
      · rename_i h1 h2
        rw [not_not] at h1 h2
        refine ⟨fun hf => by simp at hf, fun _ => ⟨_, _, _, h1, h2, rfl⟩, ?_⟩
        dsimp only
        omega

/-- C7 (amended): dungeon placement tries at most 5 candidates (drawing at
most 15 random values); when no candidate passes it returns false with the
chunk untouched; and when it commits, the two stone probes of the
committed candidate — the volume center and the cell just above the
ceiling — held STONE, the chunk being exactly the dungeon built at that
candidate.  (The code only probes those two cells, not the full volume;
the "fully embedded in stone (floor and ceiling)" reading fails.) -/
theorem tryPlaceDungeon_spec (c : Chunk) (r : RandState) :
    ((StructureGenerator.tryPlaceDungeon c r).1 = false →
      (StructureGenerator.tryPlaceDungeon c r).2.1 = c) ∧
    ((StructureGenerator.tryPlaceDungeon c r).1 = true →
      ∃ sx sy sz : Int,
        c.getBlock (sx + 3) (sy + 2) (sz + 3) = BlockType.STONE ∧
        c.getBlock (sx + 3) (sy + 5) (sz + 3) = BlockType.STONE ∧
        (StructureGenerator.tryPlaceDungeon c r).2.1 =
          StructureGenerator.buildDungeon c sx sy sz 7 5) ∧
    (StructureGenerator.tryPlaceDungeon c r).2.2.idx ≤ r.idx + 15 :=
  tryPlaceDungeonGo_spec c 5 r

/-- C7 witness: on the all-stone fixture the first candidate commits, and
the theorem recovers the probed candidate. -/
theorem tryPlaceDungeon_spec_witness :
    (StructureGenerator.tryPlaceDungeon dungeonC7pre (constStream 0)).1 = true ∧
    (∃ sx sy sz : Int,
      dungeonC7pre.getBlock (sx + 3) (sy + 2) (sz + 3) = BlockType.STONE ∧
      dungeonC7pre.getBlock (sx + 3) (sy + 5) (sz + 3) = BlockType.STONE ∧
      (StructureGenerator.tryPlaceDungeon dungeonC7pre (constStream 0)).2.1 =
        StructureGenerator.buildDungeon dungeonC7pre sx sy sz 7 5) :=
  ⟨by with_unfolding_all decide,
   (tryPlaceDungeon_spec dungeonC7pre (constStream 0)).2.1
     (by with_unfolding_all decide)⟩

/-- C7 counterexample: the candidate at (2, 12, 2) passes both stone
probes although the floor cell (4, 12, 4) of the candidate volume is AIR,
and the dungeon is carved anyway — the candidate volume is not verified
to be fully embedded in stone. -/
theorem dungeon_commits_without_full_stone :
    dungeonC7pre.grid 4 12 4 = BlockType.AIR ∧
    (StructureGenerator.tryPlaceDungeon dungeonC7pre (constStream 0)).1 = true ∧
    (StructureGenerator.tryPlaceDungeon dungeonC7pre (constStream 0)).2.1.grid
      4 12 4 = BlockType.COBBLESTONE ∧
    BlockType.AIR ≠ BlockType.STONE := by
  refine ⟨by decide, by with_unfolding_all decide, ?_, by decide⟩
  with_unfolding_all decide

-- ---------------------------------------------------------------------------
-- Theorems: block registry (C8, C10)
-- ---------------------------------------------------------------------------

theorem registry_has_get (t : Tag) (h : BlockRegistry.has t = true) :
    ∃ b, BlockRegistry.get t = Except.ok b := by
  unfold BlockRegistry.has at h
  unfold BlockRegistry.get
  cases hfind : BlockRegistry.blocks.find? (fun b => b.id = t) with
  | some b => exact ⟨b, rfl⟩
  | none => rw [hfind] at h; simp at h

/-- C10: the solidity and transparency queries are total and never raise;
AIR is non-solid and transparent; every unregistered tag is silently
treated as solid and opaque. -/
theorem registry_total_queries (t : Tag) :
    (∃ b, BlockRegistry.isSolid t = Except.ok b) ∧
    (∃ b, BlockRegistry.isTransparent t = Except.ok b) ∧
    BlockRegistry.isSolid BlockType.AIR = Except.ok false ∧
    BlockRegistry.isTransparent BlockType.AIR = Except.ok true ∧
    (BlockRegistry.has t = false →
      BlockRegistry.isSolid t = Except.ok true ∧
      BlockRegistry.isTransparent t = Except.ok false) := by
  refine ⟨?_, ?_, rfl, rfl, ?_⟩
  · unfold BlockRegistry.isSolid
    split
    · exact ⟨false, rfl⟩
    · split
      · rename_i hhas
        obtain ⟨b, hb⟩ := registry_has_get t hhas
        exact ⟨b.solid, by rw [hb]; rfl⟩
      · exact ⟨true, rfl⟩
  · unfold BlockRegistry.isTransparent
    split
    · exact ⟨true, rfl⟩
    · split
      · rename_i hhas
        obtain ⟨b, hb⟩ := registry_has_get t hhas
        exact ⟨b.transparent, by rw [hb]; rfl⟩
      · exact ⟨false, rfl⟩
  · intro hnot
    have htAir : t ≠ BlockType.AIR := by
      rintro rfl
      rw [show BlockRegistry.has BlockType.AIR = true from rfl] at hnot
      cases hnot
    constructor
    · unfold BlockRegistry.isSolid
      rw [if_neg htAir, if_neg (by rw [hnot]; simp)]
    · unfold BlockRegistry.isTransparent
      rw [if_neg htAir, if_neg (by rw [hnot]; simp)]

/-- C10 witness: the queries at the concrete unregistered tag 100. -/
theorem registry_total_queries_witness :
    BlockRegistry.has 100 = false ∧
    BlockRegistry.isSolid 100 = Except.ok true ∧
    BlockRegistry.isTransparent 100 = Except.ok false :=
  ⟨by decide, (registry_total_queries 100).2.2.2.2 (by decide)⟩

/-- C8 (amended): `get` fails loudly (raises) for every unregistered tag,
but the `isSolid` and `isTransparent` metadata lookups on an unregistered
tag do not raise: they silently return the defaults (solid, opaque). -/
theorem registry_get_raises_unregistered (t : Tag)
    (h : BlockRegistry.has t = false) :
    BlockRegistry.get t = Except.error "BlockRegistry: unknown block type" ∧
    BlockRegistry.isSolid t = Except.ok true ∧
    BlockRegistry.isTransparent t = Except.ok false := by
  have htAir : t ≠ BlockType.AIR := by
    rintro rfl
    rw [show BlockRegistry.has BlockType.AIR = true from rfl] at h
    cases h
  refine ⟨?_, ?_, ?_⟩
  · unfold BlockRegistry.get
    unfold BlockRegistry.has at h
    cases hfind : BlockRegistry.blocks.find? (fun b => b.id = t) with
    | some b => rw [hfind] at h; simp at h
    | none => rfl
  · unfold BlockRegistry.isSolid
    rw [if_neg htAir, if_neg (by rw [h]; simp)]
  · unfold BlockRegistry.isTransparent
    rw [if_neg htAir, if_neg (by rw [h]; simp)]

/-- C8 witness: the behavior at the concrete unregistered tag 100. -/
theorem registry_get_raises_unregistered_witness :
    BlockRegistry.has 100 = false ∧
    BlockRegistry.get 100 = Except.error "BlockRegistry: unknown block type" :=
  ⟨by decide, (registry_get_raises_unregistered 100 (by decide)).1⟩

/-- C8 counterexample: the metadata lookup `isSolid` on the unregistered
tag 100 does not raise — it returns a default — contradicting "every
metadata lookup on an unregistered tag raises". -/
theorem registry_isSolid_does_not_raise :
    BlockRegistry.has 100 = false ∧
    BlockRegistry.isSolid 100 = Except.ok true ∧
    ∀ msg : String, BlockRegistry.isSolid 100 ≠ Except.error msg := by
  refine ⟨by decide, rfl, ?_⟩
  intro msg h
  rw [show BlockRegistry.isSolid 100 = Except.ok true from rfl] at h
  cases h

-- ---------------------------------------------------------------------------
-- Theorems: structure vs decoration streams (C9)
-- ---------------------------------------------------------------------------

/-- C9 (amended): phase 1 draws only from the dedicated structure stream
and hands the decoration stream to phase 2 exactly as it received it —
structure rolls never perturb the decoration stream — so phase 2 runs on
the pristine decoration stream; however the phase-2 *outcome* may still
differ after a committed structure, because committed blocks make columns
fail the air check (see the counterexample). -/
theorem structure_rolls_preserve_decoration_stream (c : Chunk)
    (hm : Int → Int → Int) (bm : BiomeMapM) (wx wz : Int) (r s : RandState) :
    (StructureGenerator.placeStructuresWith c hm bm wx wz r s).2.1 = r ∧
    StructureGenerator.generateWith c hm bm wx wz r s =
      (StructureGenerator.decorateAll
        (StructureGenerator.placeStructuresWith c hm bm wx wz r s).1
        hm bm wx wz r).1 := by
  have h1 : (StructureGenerator.placeStructuresWith c hm bm wx wz r s).2.1 = r := by
    unfold StructureGenerator.placeStructuresWith
    dsimp only
    split
    · rfl
    · split
      · rfl
      · rfl
  refine ⟨h1, ?_⟩
  unfold StructureGenerator.generateWith
  dsimp only
  rw [h1]

/-- C9 witness: the handed-on decoration stream at a concrete call. -/
theorem structure_rolls_preserve_decoration_stream_witness :
    (StructureGenerator.placeStructuresWith emptyChunk flatHm64 desertBM 0 0
      (constStream 0) (constStream 0)).2.1 = constStream 0 :=
  (structure_rolls_preserve_decoration_stream emptyChunk flatHm64 desertBM 0 0
    (constStream 0) (constStream 0)).1

set_option maxHeartbeats 4000000 in
set_option maxRecDepth 100000 in
/-- C9 counterexample: with a committed desert well, the phase-2 outcome
differs from running phase 2 alone on the same chunk — column (8, 5) gets
a cactus without the well but stays air with it (the well rim makes its
neighbour fail the clear-neighbours check) — so the surface-decoration
outcome is not identical whether or not a structure roll succeeds. -/
theorem structures_change_decoration_outcome :
    (StructureGenerator.generateWith structC9pre flatHm64 desertBM 0 0
      (constStream 0) (constStream 0)).grid 8 65 5 = BlockType.AIR ∧
    (StructureGenerator.decorateAll structC9pre flatHm64 desertBM 0 0
      (constStream 0)).1.grid 8 65 5 = BlockType.CACTUS ∧
    BlockType.AIR ≠ BlockType.CACTUS := by
  refine ⟨?_, ?_, by decide⟩ <;> with_unfolding_all decide

-- ---------------------------------------------------------------------------
-- Theorems: pipeline determinism (C5)
-- ---------------------------------------------------------------------------

/-- C5: chunk generation is deterministic — for a fixed seed, fixed chunk
coordinates and fixed noise/cave/ore oracles (which the library derives
deterministically from the seed), running the full pipeline twice on two
identically-initialized chunks produces identical block grids.  The
embedding threads every random draw from per-chunk hashes of
(seed, worldX, worldZ), so the result is a pure function of its inputs. -/
theorem generateChunk_deterministic (O : TerrainGenerator.Oracles)
    (seed : Nat) (cx cz : Int) (c1 c2 : Chunk) (h : c1 = c2) :
    TerrainGenerator.generateChunk O seed cx cz c1 =
      TerrainGenerator.generateChunk O seed cx cz c2 := by
  rw [h]

/-- C5 witness: two runs from the empty chunk at seed 42, chunk (0, 0). -/
theorem generateChunk_deterministic_witness :
    emptyChunk = emptyChunk ∧
    TerrainGenerator.generateChunk trivOracles 42 0 0 emptyChunk =
      TerrainGenerator.generateChunk trivOracles 42 0 0 emptyChunk :=
  ⟨rfl, generateChunk_deterministic trivOracles 42 0 0 emptyChunk emptyChunk rfl⟩
